import Mathlib

/- Verification of the UniTR admissions-assistant decision engine.

   This file shallowly embeds the engine's TypeScript sources
   (src/tools/build-eligibility-snapshot.ts, src/tools/build-document-checklist.ts,
   src/tools/build-timeline.ts, src/tools/search-programs.ts and
   src/db/repositories/program.repository.ts) as executable Lean definitions and
   proves properties of eligibility evaluation, document resolution, timeline
   planning and keyword expansion.

   Modelling conventions:
   - JavaScript numbers that carry scores/thresholds are modelled as ℚ; the
     NaN produced by parseFloat on a non-numeric string is modelled by an
     Option ℚ being none (every ordered comparison with NaN is false).
   - Day counts stored in the catalog are modelled as ℕ.
   - String.prototype.toLowerCase is modelled on the code points the engine
     manipulates: ASCII letters are lowered, the Arabic block U+0600-U+06FF has
     no case mapping, other code points are left unchanged.
   - Database rows are lists of structures; SQL WHERE/COALESCE clauses become
     filters and Option.getD.  ORDER BY clauses that no proved property depends
     on are noted where omitted.
   - Fields of output records that are produced by pure text lookup and never
     read back by any engine logic (why_needed texts, apostille notes,
     timestamps) are noted where omitted. -/

/-- Lower-case an ASCII letter, modelling the effect of JavaScript
toLowerCase on the code points handled by this engine. -/
def jsToLowerChar (c : Char) : Char :=
  if 65 ≤ c.toNat ∧ c.toNat ≤ 90 then Char.ofNat (c.toNat + 32) else c

/-- Model of JavaScript String.prototype.toLowerCase. -/
def jsToLower (s : String) : String :=
  ⟨s.data.map jsToLowerChar⟩

/-- Decide whether the pattern occurs as a contiguous sublist, by checking a
prefix match at every position. -/
def listHasSub (l pat : List Char) : Bool :=
  match l with
  | [] => pat.isEmpty
  | _ :: t => pat.isPrefixOf l || listHasSub t pat

/-- Model of JavaScript String.prototype.includes. -/
def jsIncludes (s pat : String) : Bool :=
  listHasSub s.data pat.data

/-- Model of JavaScript Array.prototype.indexOf on a list of strings:
the index of the first occurrence, or -1. -/
def jsIndexOf : List String → String → Int
  | [], _ => -1
  | x :: xs, s => if x = s then 0 else
      match jsIndexOf xs s with
      | -1 => -1
      | i => i + 1

/-- Truthiness of an optional JavaScript number (undefined and 0 are falsy). -/
def jsTruthyNum (o : Option ℚ) : Bool :=
  match o with
  | none => false
  | some v => !(v = 0)

/-- Current education level of an applicant (zod enum). -/
inductive EduLevel
  | high_school | bachelor | master | phd
  deriving DecidableEq

/-- String form of an education level, as it appears in the TypeScript enums. -/
def EduLevel.str : EduLevel → String
  | .high_school => "high_school"
  | .bachelor => "bachelor"
  | .master => "master"
  | .phd => "phd"

/-- Degree level of a program (zod enum / CHECK constraint). -/
inductive DegreeLevel
  | bachelor | master | phd | associate
  deriving DecidableEq

/-- Eligibility status values of the snapshot tool. -/
inductive Status
  | likely_eligible | needs_review | unlikely
  deriving DecidableEq

/-- English test kinds accepted by the profile schema. -/
inductive EnglishTestType
  | ielts | toefl
  deriving DecidableEq

/-- English score of a profile. -/
structure EnglishScore where
  type : EnglishTestType
  score : ℚ
  deriving DecidableEq

/-- Turkish score of a profile (the test kind is always tomer). -/
structure TurkishScore where
  level : String
  deriving DecidableEq

/-- Student profile as accepted by buildEligibilitySnapshotInputSchema. -/
structure Profile where
  nationality : String
  current_education_level : EduLevel
  desired_degree_level : DegreeLevel
  gpa : Option ℚ := none
  english_score : Option EnglishScore := none
  turkish_score : Option TurkishScore := none
  has_portfolio : Option Bool := none
  work_experience_years : Option ℚ := none
  deriving DecidableEq

/-- Result of JSON.parse on a language_proficiency rule value, restricted to
the properties the evaluator reads.  A missing or non-string property is none. -/
structure LangPayload where
  type : Option String := none
  ielts : Option ℚ := none
  toefl : Option ℚ := none
  tomer : Option String := none
  deriving DecidableEq

/-- Outcome of attempting to interpret a rule value as JSON: throws covers a
JSON.parse exception (and a parsed null whose property access throws, which
the same try/catch swallows). -/
inductive LangParse
  | throws
  | ok (payload : LangPayload)
  deriving DecidableEq

/-- The two interpretations of a stored rule_value string that the evaluator
uses: its parseFloat reading (none models NaN) and its JSON reading. -/
structure RuleValue where
  parseFloat : Option ℚ := none
  langParse : LangParse := LangParse.throws
  deriving DecidableEq

/-- Requirement as returned by the repository to the evaluator
(RequirementOutput).  The bilingual human_text fields are never read by the
evaluation logic and are omitted. -/
structure Requirement where
  rule_type : String
  rule_value : RuleValue
  required : Bool := true
  deriving DecidableEq

/-- One evaluated rule outcome (EligibilityReason). -/
structure Reason where
  rule_type : String
  passed : Bool
  reason_ar : String
  reason_en : String
  data_driven : Bool
  deriving DecidableEq

/-- Resolved document of a program (DocumentOutput of the repository). -/
structure DocumentOutput where
  doc_key : String
  label_ar : String
  label_en : String
  required : Bool
  translation_required : Bool
  notarization_required : Bool
  notes_ar : Option String
  notes_en : Option String
  estimated_days : Option Nat
  deriving DecidableEq

/-- Program detail consumed by the tools (ProgramDetailOutput restricted to
the fields the tools read: university/tuition/verification metadata is only
echoed to the caller and is omitted). -/
structure ProgramDetail where
  id : String
  degree_level : DegreeLevel
  intakes : List String
  requirements : List Requirement
  documents : List DocumentOutput
  deriving DecidableEq

/-- Education check outcome of checkEducationLevel. -/
structure EduCheck where
  passed : Bool
  reason_ar : String
  reason_en : String
  deriving DecidableEq

/-- Ordered education levels used by checkEducationLevel. -/
def levelOrder : List String :=
  ["high_school", "bachelor", "master", "phd"]

/-- Model of checkEducationLevel from build-eligibility-snapshot.ts. -/
def checkEducationLevel (current : EduLevel) (desired : DegreeLevel) : EduCheck :=
  let currentIndex := jsIndexOf levelOrder current.str
  if (desired = DegreeLevel.bachelor ∨ desired = DegreeLevel.associate) ∧ 0 ≤ currentIndex then
    { passed := true
      reason_ar := "المستوى التعليمي مناسب"
      reason_en := "Education level is appropriate" }
  else if desired = DegreeLevel.master then
    if current = EduLevel.bachelor ∨ current = EduLevel.master ∨ current = EduLevel.phd then
      { passed := true
        reason_ar := "لديك شهادة البكالوريوس المطلوبة"
        reason_en := "You have the required bachelor degree" }
    else
      { passed := false
        reason_ar := "برامج الماجستير تتطلب شهادة البكالوريوس"
        reason_en := "Master programs require a bachelor degree" }
  else if desired = DegreeLevel.phd then
    if current = EduLevel.master ∨ current = EduLevel.phd then
      { passed := true
        reason_ar := "لديك شهادة الماجستير المطلوبة"
        reason_en := "You have the required master degree" }
    else
      { passed := false
        reason_ar := "برامج الدكتوراه تتطلب شهادة الماجستير"
        reason_en := "PhD programs require a master degree" }
  else
    { passed := true
      reason_ar := "المستوى التعليمي مناسب"
      reason_en := "Education level is appropriate" }

/-- Effect of evaluating one requirement: an optional reason plus the entries
pushed onto the missingInfo, missingFields and assumptions accumulators. -/
structure EvalEffect where
  reason : Option Reason
  missingInfo : List String
  missingFields : List String
  assumptions : List String
  deriving DecidableEq

/-- Threshold comparison used for English scores: the guard mirrors the JS
truthiness test on the payload property followed by score >= threshold. -/
def checkThreshold (score : ℚ) (o : Option ℚ) : Bool :=
  jsTruthyNum o &&
    match o with
    | some t => decide (t ≤ score)
    | none => false

/-- Model of evaluateRequirement from build-eligibility-snapshot.ts.  The
switch on rule_type becomes a chain of string comparisons; array pushes become
the returned EvalEffect lists. -/
def evaluateRequirement (req : Requirement) (profile : Profile) : EvalEffect :=
  if req.rule_type = "gpa_minimum" then
    match profile.gpa with
    | none =>
      { reason := none
        missingInfo := ["GPA / المعدل التراكمي"]
        missingFields := ["gpa"]
        assumptions := [] }
    | some gpa =>
      let passed :=
        match req.rule_value.parseFloat with
        | some requiredGpa => decide (requiredGpa ≤ gpa)
        | none => false
      let requiredGpaStr :=
        match req.rule_value.parseFloat with
        | some requiredGpa => toString requiredGpa
        | none => "NaN"
      { reason := some
          { rule_type := "gpa_minimum"
            passed := passed
            reason_ar :=
              if passed then
                "معدلك " ++ toString gpa ++ " يستوفي الحد الأدنى " ++ requiredGpaStr
              else
                "معدلك " ++ toString gpa ++ " أقل من الحد الأدنى المطلوب " ++ requiredGpaStr
            reason_en :=
              if passed then
                "Your GPA " ++ toString gpa ++ " meets the minimum " ++ requiredGpaStr
              else
                "Your GPA " ++ toString gpa ++ " is below the required minimum " ++ requiredGpaStr
            data_driven := true }
        missingInfo := []
        missingFields := []
        assumptions := [] }
  else if req.rule_type = "language_proficiency" then
    match req.rule_value.langParse with
    | LangParse.throws =>
      { reason := none
        missingInfo := []
        missingFields := []
        assumptions := ["Could not parse language requirement - defaulting to needs review"] }
    | LangParse.ok langReq =>
      if langReq.type = some "english" then
        match profile.english_score with
        | none =>
          { reason := none
            missingInfo := ["English proficiency score / درجة اللغة الإنجليزية"]
            missingFields := ["english_score"]
            assumptions := [] }
        | some es =>
          let passed :=
            if es.type = EnglishTestType.ielts then checkThreshold es.score langReq.ielts
            else if es.type = EnglishTestType.toefl then checkThreshold es.score langReq.toefl
            else false
          { reason := some
              { rule_type := "language_proficiency"
                passed := passed
                reason_ar :=
                  if passed then "درجة اللغة الإنجليزية تستوفي المتطلبات"
                  else "درجة اللغة الإنجليزية لا تستوفي الحد الأدنى المطلوب"
                reason_en :=
                  if passed then "English score meets the requirements"
                  else "English score does not meet the minimum requirement"
                data_driven := true }
            missingInfo := []
            missingFields := []
            assumptions := [] }
      else if langReq.type = some "turkish" then
        match profile.turkish_score with
        | none =>
          { reason := none
            missingInfo := ["Turkish proficiency score / درجة اللغة التركية"]
            missingFields := ["turkish_score"]
            assumptions := [] }
        | some ts =>
          let sixLevels := ["A1", "A2", "B1", "B2", "C1", "C2"]
          let requiredLevel :=
            match langReq.tomer with
            | some s => if s = "" then "B2" else s
            | none => "B2"
          let passed := decide (jsIndexOf sixLevels requiredLevel ≤ jsIndexOf sixLevels ts.level)
          { reason := some
              { rule_type := "language_proficiency"
                passed := passed
                reason_ar :=
                  if passed then "مستوى اللغة التركية يستوفي المتطلبات"
                  else "مستوى اللغة التركية لا يستوفي الحد الأدنى المطلوب (" ++ requiredLevel ++ ")"
                reason_en :=
                  if passed then "Turkish level meets the requirements"
                  else "Turkish level does not meet the minimum requirement (" ++ requiredLevel ++ ")"
                data_driven := true }
            missingInfo := []
            missingFields := []
            assumptions := [] }
      else
        { reason := none, missingInfo := [], missingFields := [], assumptions := [] }
  else if req.rule_type = "portfolio_required" then
    match profile.has_portfolio with
    | none =>
      { reason := none
        missingInfo := ["Portfolio status / حالة ملف الأعمال"]
        missingFields := ["has_portfolio"]
        assumptions := [] }
    | some hasPortfolio =>
      let passed := hasPortfolio
      { reason := some
          { rule_type := "portfolio_required"
            passed := passed
            reason_ar := if passed then "لديك ملف أعمال" else "يتطلب البرنامج تقديم ملف أعمال"
            reason_en :=
              if passed then "You have a portfolio" else "Program requires a portfolio submission"
            data_driven := true }
        missingInfo := []
        missingFields := []
        assumptions := [] }
  else if req.rule_type = "work_experience" then
    match profile.work_experience_years with
    | none =>
      { reason := none
        missingInfo := ["Work experience / الخبرة العملية"]
        missingFields := ["work_experience_years"]
        assumptions := [] }
    | some _ => { reason := none, missingInfo := [], missingFields := [], assumptions := [] }
  else
    { reason := none
      missingInfo := []
      missingFields := []
      assumptions := ["Unknown requirement type: " ++ req.rule_type] }

/-- Major-failure test applied inside determineStatus: a failed gpa_minimum
reason, or a failed reason whose English text names the education-level
prerequisite. -/
def majorFailureCheck (r : Reason) : Bool :=
  r.rule_type == "gpa_minimum" ||
  jsIncludes (jsToLower r.reason_en) "education level" ||
  jsIncludes (jsToLower r.reason_en) "bachelor degree" ||
  jsIncludes (jsToLower r.reason_en) "master degree" ||
  jsIncludes (jsToLower r.reason_en) "require a bachelor" ||
  jsIncludes (jsToLower r.reason_en) "require a master"

/-- Model of determineStatus from build-eligibility-snapshot.ts.  The source
returns unlikely inside a nested if whose outer guard is
failedRequired.length > 0 and otherwise falls through, which is the
conjunction written here. -/
def determineStatus (reasons : List Reason) (missingInfo : List String) : Status :=
  let failedRequired := reasons.filter (fun r => !r.passed && r.data_driven)
  let majorFailures := failedRequired.filter majorFailureCheck
  if 0 < failedRequired.length ∧ 0 < majorFailures.length then Status.unlikely
  else if 0 < missingInfo.length then Status.needs_review
  else if reasons.all (fun r => r.passed) then Status.likely_eligible
  else Status.needs_review

/-- Data payload of a successful eligibility snapshot (the fixed bilingual
disclaimer string is constant and omitted). -/
structure SnapshotData where
  status : Status
  reasons : List Reason
  missing_info : List String
  missing_fields : List String
  assumptions : List String
  deriving DecidableEq

/-- Reason recorded for the education-level prerequisite check. -/
def educationReason (eduOk : EduCheck) : Reason :=
  if eduOk.passed then
    { rule_type := "other"
      passed := true
      reason_ar := "المستوى التعليمي مناسب للبرنامج"
      reason_en := "Education level is appropriate for the program"
      data_driven := true }
  else
    { rule_type := "other"
      passed := false
      reason_ar := eduOk.reason_ar
      reason_en := eduOk.reason_en
      data_driven := true }

/-- Core of buildEligibilitySnapshot once the program detail has been fetched:
the education check, the per-requirement evaluation loop and the status
determination. -/
def evaluateEligibility (profile : Profile) (detail : ProgramDetail) : SnapshotData :=
  let eduOk := checkEducationLevel profile.current_education_level detail.degree_level
  let effects := detail.requirements.map (fun req => evaluateRequirement req profile)
  let reasons := educationReason eduOk :: effects.filterMap (fun e => e.reason)
  let missingInfo := (effects.map (fun e => e.missingInfo)).flatten
  let missingFields := (effects.map (fun e => e.missingFields)).flatten
  let assumptions := (effects.map (fun e => e.assumptions)).flatten
  { status := determineStatus reasons missingInfo
    reasons := reasons
    missing_info := missingInfo
    missing_fields := missingFields
    assumptions := assumptions }

/-- COALESCE of two nullable values. -/
def coalesce {α : Type} (a b : Option α) : Option α :=
  match a with
  | some x => some x
  | none => b

/-- Row of the requirements table (the applicant_category and human text
columns are never read by the engine and are omitted). -/
structure RequirementRow where
  id : String
  program_id : Option String
  university_id : Option String
  rule_type : String
  rule_value : RuleValue
  required_flag : Bool := true
  deriving DecidableEq

/-- Row of the document_templates table. -/
structure DocumentTemplate where
  doc_key : String
  label_ar : String
  label_en : String
  translation_required_default : Bool := false
  notarization_required_default : Bool := false
  notes_ar : Option String := none
  notes_en : Option String := none
  estimated_days_to_obtain : Option Nat := none
  deriving DecidableEq

/-- Row of the program_document_rules table; a none flag is a NULL column
meaning inherit the template default. -/
structure ProgramDocumentRule where
  program_id : String
  doc_key : String
  required_flag : Option Bool := some true
  translation_required : Option Bool := none
  notarization_required : Option Bool := none
  notes_ar : Option String := none
  notes_en : Option String := none
  deriving DecidableEq

/-- Row of the programs table (fields read by the tools; the stored intakes
JSON text is modelled as the parsed list). -/
structure ProgramRow where
  id : String
  university_id : String
  degree_level : DegreeLevel
  intakes : List String
  deriving DecidableEq

/-- Read-only catalog backing the repository. -/
structure Catalog where
  programs : List ProgramRow
  requirements : List RequirementRow
  document_templates : List DocumentTemplate
  program_document_rules : List ProgramDocumentRule
  deriving DecidableEq

/-- University id of a program, the scalar subquery inside getRequirements
(none when no program row matches, in which case the SQL equality with NULL
selects nothing). -/
def programUniversity (cat : Catalog) (programId : String) : Option String :=
  (cat.programs.find? (fun p => p.id == programId)).map (fun p => p.university_id)

/-- Rows selected by the WHERE clause of ProgramRepository.getRequirements:
program-scoped rows of this program, or institution-scoped rows (NULL
program_id) of the program's university.  The ORDER BY required_flag DESC,
rule_type clause is omitted; no proved property depends on row order. -/
def getRequirementRows (cat : Catalog) (programId : String) : List RequirementRow :=
  cat.requirements.filter (fun row =>
    row.program_id == some programId ||
      (row.program_id == none &&
        match programUniversity cat programId with
        | some u => row.university_id == some u
        | none => false))

/-- Mapping of a requirement row to the RequirementOutput shape. -/
def toRequirement (row : RequirementRow) : Requirement :=
  { rule_type := row.rule_type
    rule_value := row.rule_value
    required := row.required_flag }

/-- Model of ProgramRepository.getRequirements. -/
def getRequirements (cat : Catalog) (programId : String) : List Requirement :=
  (getRequirementRows cat programId).map toRequirement

/-- JOIN of a program_document_rules row to its document template. -/
def findTemplate (cat : Catalog) (docKey : String) : Option DocumentTemplate :=
  cat.document_templates.find? (fun dt => dt.doc_key == docKey)

/-- Model of ProgramRepository.getDocuments: the per-program rules joined to
their templates, with COALESCE giving override-else-default semantics for the
required, translation and notarization flags and the notes.  The ORDER BY
required_flag DESC, label_en clause is omitted; no proved property depends on
row order. -/
def getDocuments (cat : Catalog) (programId : String) : List DocumentOutput :=
  (cat.program_document_rules.filter (fun pdr => pdr.program_id == programId)).filterMap
    (fun pdr =>
      (findTemplate cat pdr.doc_key).map (fun dt =>
        { doc_key := dt.doc_key
          label_ar := dt.label_ar
          label_en := dt.label_en
          required := pdr.required_flag.getD true
          translation_required := pdr.translation_required.getD dt.translation_required_default
          notarization_required := pdr.notarization_required.getD dt.notarization_required_default
          notes_ar := coalesce pdr.notes_ar dt.notes_ar
          notes_en := coalesce pdr.notes_en dt.notes_en
          estimated_days := dt.estimated_days_to_obtain }))

/-- Model of ProgramRepository.getProgramDetail. -/
def getProgramDetail (cat : Catalog) (programId : String) : Option ProgramDetail :=
  (cat.programs.find? (fun p => p.id == programId)).map (fun p =>
    { id := p.id
      degree_level := p.degree_level
      intakes := p.intakes
      requirements := getRequirements cat programId
      documents := getDocuments cat programId })

/-- Structured success/failure result of a tool call (the metadata timestamp
is IO and omitted). -/
inductive ToolResponse (α : Type)
  | ok (data : α)
  | err (code : String) (message_ar : String) (message_en : String)
  deriving DecidableEq

/-- Model of buildEligibilitySnapshot including the program lookup (the fixed
bilingual disclaimer string is constant and omitted from SnapshotData). -/
def buildEligibilitySnapshot (profile : Profile) (programId : String) (cat : Catalog) :
    ToolResponse SnapshotData :=
  match getProgramDetail cat programId with
  | none => ToolResponse.err "PROGRAM_NOT_FOUND" "البرنامج غير موجود" "Program not found"
  | some detail => ToolResponse.ok (evaluateEligibility profile detail)

/-- Checklist item (ChecklistItemOutput restricted to the fields read by the
timeline planner plus the required flag; the applies_to, apostille_notes and
why_needed texts are static advisory strings never read back by any logic). -/
structure ChecklistItemOutput where
  doc_key : String
  label_ar : String
  label_en : String
  required : Bool
  translation_required : Bool
  notarization_required : Bool
  priority : String
  estimated_days : Option Nat
  deriving DecidableEq

/-- Data of a successful document checklist. -/
structure DocumentChecklistData where
  items : List ChecklistItemOutput
  unknowns : List String
  assumptions : List String
  deriving DecidableEq

/-- Stable insertion of an element into a comparator-sorted list: it goes
before the first element that does not compare smaller, which reproduces the
result of a stable Array.prototype.sort with a consistent comparator. -/
def insertByCmp {α : Type} (cmp : α → α → Int) (x : α) : List α → List α
  | [] => [x]
  | y :: ys => if cmp x y ≤ 0 then x :: y :: ys else y :: insertByCmp cmp x ys

/-- Stable comparator sort (model of Array.prototype.sort). -/
def sortByCmp {α : Type} (cmp : α → α → Int) : List α → List α
  | [] => []
  | x :: xs => insertByCmp cmp x (sortByCmp cmp xs)

/-- Checklist comparator: required before recommended, then ascending by
estimated days with a missing duration treated as 0. -/
def checklistCmp (a b : ChecklistItemOutput) : Int :=
  if a.priority == "required" && !(b.priority == "required") then -1
  else if b.priority == "required" && !(a.priority == "required") then 1
  else (a.estimated_days.getD 0 : Int) - (b.estimated_days.getD 0 : Int)

/-- Per-document step of the checklist loop: none when the document is
filtered out by education-level relevance, otherwise the checklist item
together with the optional default-rules assumption pushed for it. -/
def checklistStep (profile : Profile) (doc : DocumentOutput) :
    Option (ChecklistItemOutput × Option String) :=
  if jsIncludes doc.doc_key "bachelor" && (profile.current_education_level == EduLevel.high_school) then
    none
  else if jsIncludes doc.doc_key "master" &&
      !(profile.current_education_level == EduLevel.master ||
        profile.current_education_level == EduLevel.phd) then
    none
  else
    some
      ({ doc_key := doc.doc_key
         label_ar := doc.label_ar
         label_en := doc.label_en
         required := doc.required
         translation_required := doc.translation_required
         notarization_required := doc.notarization_required
         priority := if doc.required then "required" else "recommended"
         estimated_days := doc.estimated_days },
       if doc.translation_required && doc.notarization_required then
         some (doc.label_en ++ " requires both translation and notarization based on default rules")
       else none)

/-- Core of buildDocumentChecklist once the program detail has been fetched:
education-level filtering, mapping to checklist items and the
required-first/shorter-first sort. -/
def checklistItems (profile : Profile) (detail : ProgramDetail) : List ChecklistItemOutput :=
  sortByCmp checklistCmp
    ((detail.documents.filterMap (checklistStep profile)).map (fun pair => pair.1))

/-- Assumptions accumulated by the checklist loop, in document order. -/
def checklistAssumptions (profile : Profile) (detail : ProgramDetail) : List String :=
  (detail.documents.filterMap (checklistStep profile)).filterMap (fun pair => pair.2)

/-- Model of buildDocumentChecklist from build-document-checklist.ts. -/
def buildDocumentChecklist (profile : Profile) (programId : String) (cat : Catalog) :
    ToolResponse DocumentChecklistData :=
  match getProgramDetail cat programId with
  | none => ToolResponse.err "PROGRAM_NOT_FOUND" "البرنامج غير موجود" "Program not found"
  | some detail =>
    ToolResponse.ok
      { items := checklistItems profile detail
        unknowns :=
          if detail.documents.length = 0 then
            ["Document requirements not available for this program / متطلبات الوثائق غير متوفرة لهذا البرنامج"]
          else []
        assumptions := checklistAssumptions profile detail }

/-- Default task durations table DEFAULT_TASK_DURATIONS from
build-timeline.ts (property access on a missing key is undefined). -/
def DEFAULT_TASK_DURATIONS : String → Option Nat
  | "high_school_diploma" => some 7
  | "high_school_transcript" => some 5
  | "passport_copy" => some 1
  | "personal_photo" => some 1
  | "english_proficiency" => some 14
  | "turkish_proficiency" => some 14
  | "bachelor_diploma" => some 7
  | "bachelor_transcript" => some 5
  | "cv_resume" => some 3
  | "motivation_letter" => some 5
  | "recommendation_letters" => some 14
  | "master_diploma" => some 7
  | "master_transcript" => some 5
  | "research_proposal" => some 21
  | "portfolio" => some 21
  | "health_certificate" => some 7
  | "translation" => some 5
  | "notarization" => some 3
  | "submission" => some 1
  | _ => none

/-- JavaScript a || b for an optional day count and a fallback (undefined and
0 are falsy). -/
def jsOrNat (o : Option Nat) (fallback : Nat) : Nat :=
  match o with
  | some n => if n = 0 then fallback else n
  | none => fallback

/-- Task record built by the buildTimeline loop over checklist items. -/
structure TimelineCalcTask where
  doc_key : String
  label_ar : String
  label_en : String
  estimated_days : Nat
  required : Bool
  deriving DecidableEq

/-- Total duration of one checklist item: base days (falling back to the
static per-key default, else the global default 7) plus the translation and
notarization buffers from the duration table. -/
def taskTotalDays (item : ChecklistItemOutput) : Nat :=
  jsOrNat item.estimated_days (jsOrNat (DEFAULT_TASK_DURATIONS item.doc_key) 7)
    + (if item.translation_required then (DEFAULT_TASK_DURATIONS "translation").getD 0 else 0)
    + (if item.notarization_required then (DEFAULT_TASK_DURATIONS "notarization").getD 0 else 0)

/-- Tasks derived from the checklist items, in checklist order. -/
def timelineTasks (items : List ChecklistItemOutput) : List TimelineCalcTask :=
  items.map (fun item =>
    { doc_key := item.doc_key
      label_ar := item.label_ar
      label_en := item.label_en
      estimated_days := taskTotalDays item
      required := item.priority == "required" })

/-- Timeline comparator (a, b) => b.estimated_days - a.estimated_days:
descending by duration. -/
def taskCmp (a b : TimelineCalcTask) : Int :=
  (b.estimated_days : Int) - (a.estimated_days : Int)

/-- Longest total duration, read off the head of the descending-sorted task
list exactly as in the source (0 when there are no tasks). -/
def maxDuration (sorted : List TimelineCalcTask) : Nat :=
  match sorted with
  | [] => 0
  | t :: _ => t.estimated_days

/-- Critical-path item keys: every task whose duration is at least 70% of the
longest duration, collected in sorted order.  For integer day counts the
JavaScript double computation maxDuration * 0.7 decides every comparison with
an integer exactly as the rational bound used here. -/
def criticalPathOf (sorted : List TimelineCalcTask) : List String :=
  (sorted.filter (fun t =>
    decide ((maxDuration sorted : ℚ) * (7 / 10) ≤ (t.estimated_days : ℚ)))).map
      (fun t => t.doc_key)

/-- Task entry of a timeline week. -/
structure TimelineTask where
  doc_key : String
  task_ar : String
  task_en : String
  is_critical_path : Bool
  estimated_days : Nat
  deriving DecidableEq

/-- Week of the generated schedule; start and end dates are day offsets
today + 7 * (week - 1) and start + 6, modelling the Date arithmetic (the ISO
string formatting is not modelled). -/
structure TimelineWeek where
  week_number : Nat
  start_date : Int
  end_date : Int
  tasks : List TimelineTask
  deriving DecidableEq

/-- Model of generateWeeklySchedule from build-timeline.ts (the source also
binds an optionalTasks list that it never uses). -/
def generateWeeklySchedule (tasks : List TimelineCalcTask) (totalWeeks : Nat)
    (criticalPath : List String) (today : Int) : List TimelineWeek :=
  let criticalTasks := tasks.filter (fun t => criticalPath.contains t.doc_key && t.required)
  let requiredTasks := tasks.filter (fun t => !criticalPath.contains t.doc_key && t.required)
  (List.range totalWeeks).map (fun i =>
    let weekNum : Nat := i + 1
    let startDate := today + ((weekNum : Int) - 1) * 7
    let endDate := startDate + 6
    let weekTasks : List TimelineTask :=
      if weekNum ≤ 2 then
        (criticalTasks.take 2).map (fun t =>
          { doc_key := t.doc_key
            task_ar := "ابدأ بالحصول على " ++ t.label_ar
            task_en := "Start obtaining " ++ t.label_en
            is_critical_path := true
            estimated_days := t.estimated_days })
      else if weekNum ≤ 4 then
        ((criticalTasks.drop 2).take 1).map (fun t =>
          { doc_key := t.doc_key
            task_ar := "متابعة " ++ t.label_ar
            task_en := "Follow up on " ++ t.label_en
            is_critical_path := true
            estimated_days := t.estimated_days }) ++
        (requiredTasks.take 2).map (fun t =>
          { doc_key := t.doc_key
            task_ar := "ابدأ بالحصول على " ++ t.label_ar
            task_en := "Start obtaining " ++ t.label_en
            is_critical_path := false
            estimated_days := t.estimated_days })
      else if weekNum ≤ 6 then
        (requiredTasks.drop 2).map (fun t =>
          { doc_key := t.doc_key
            task_ar := "إكمال " ++ t.label_ar
            task_en := "Complete " ++ t.label_en
            is_critical_path := false
            estimated_days := t.estimated_days }) ++
        [{ doc_key := "translation_notarization"
           task_ar := "إرسال الوثائق للترجمة والتوثيق"
           task_en := "Submit documents for translation and notarization"
           is_critical_path := true
           estimated_days := 8 }]
      else
        { doc_key := "final_review"
          task_ar := "مراجعة نهائية لجميع الوثائق"
          task_en := "Final review of all documents"
          is_critical_path := false
          estimated_days := 2 } ::
        (if weekNum = totalWeeks then
          [{ doc_key := "submission"
             task_ar := "تقديم طلب الالتحاق"
             task_en := "Submit application"
             is_critical_path := true
             estimated_days := 1 }]
         else [])
    { week_number := weekNum
      start_date := startDate
      end_date := endDate
      tasks := weekTasks })

/-- Data of a successful timeline. -/
structure TimelineData where
  weeks : List TimelineWeek
  critical_path_items : List String
  target_intake : String
  assumptions : List String
  deriving DecidableEq

/-- Fuzzy intake match: case-insensitive substring containment in either
direction. -/
def intakeMatches (target intake : String) : Bool :=
  jsIncludes (jsToLower intake) (jsToLower target) ||
  jsIncludes (jsToLower target) (jsToLower intake)

/-- Truthiness of an optional JavaScript string (undefined and the empty
string are falsy). -/
def jsTruthyStr (o : Option String) : Bool :=
  match o with
  | none => false
  | some s => !(s = "")

/-- Intake resolution of buildTimeline: the resolved target label, whether an
intake date is known and the assumption pushed when the program declares no
intakes. -/
def resolveIntake (intakeTarget : Option String) (intakes : List String) :
    String × Bool × List String :=
  let targetIntake0 :=
    match intakeTarget with
    | some s => if s = "" then "September" else s
    | none => "September"
  if 0 < intakes.length then
    if jsTruthyStr intakeTarget then
      match intakes.find? (fun i => intakeMatches (intakeTarget.getD "") i) with
      | some m => (m, true, [])
      | none => (targetIntake0, false, [])
    else (intakes.headD targetIntake0, true, [])
  else (targetIntake0, false, ["Intake dates not available - using generic 8-week timeline"])

/-- Model of buildTimeline from build-timeline.ts.  The today parameter stands
for new Date(); a failed checklist is reported as CHECKLIST_ERROR exactly as
in the source, and the PROGRAM_NOT_FOUND branch below it is kept although the
checklist can only fail when the program lookup fails. -/
def buildTimeline (profile : Profile) (programId : String) (intakeTarget : Option String)
    (cat : Catalog) (today : Int) : ToolResponse TimelineData :=
  match buildDocumentChecklist profile programId cat with
  | ToolResponse.err _ _ _ =>
    ToolResponse.err "CHECKLIST_ERROR" "لم نتمكن من تحديد المستندات المطلوبة"
      "Could not determine required documents"
  | ToolResponse.ok checklist =>
    match getProgramDetail cat programId with
    | none => ToolResponse.err "PROGRAM_NOT_FOUND" "البرنامج غير موجود" "Program not found"
    | some detail =>
      let tasks := sortByCmp taskCmp (timelineTasks checklist.items)
      let criticalPath := criticalPathOf tasks
      let resolved := resolveIntake intakeTarget detail.intakes
      let intakeDateKnown := resolved.2.1
      let weeks := generateWeeklySchedule tasks (if intakeDateKnown then 8 else 8) criticalPath today
      let assumptions :=
        resolved.2.2 ++
        (if !intakeDateKnown then ["Timeline is based on an 8-week preparation period"] else []) ++
        (if tasks.any (fun t => t.estimated_days == 0) then
          ["Some task durations are estimated based on typical processing times"]
         else [])
      ToolResponse.ok
        { weeks := weeks
          critical_path_items := criticalPath
          target_intake := resolved.1
          assumptions := assumptions }
/-- Synonym table KEYWORD_SYNONYMS from search-programs.ts, in source order. -/
def KEYWORD_SYNONYMS : List (String × List String) :=
  [("computer engineering",
     ["ce", "ceng", "comp eng", "bilgisayar mühendisliği", "هندسة الحاسوب", "هندسة حاسوب"]),
   ("ce", ["computer engineering", "ceng", "comp eng", "bilgisayar mühendisliği", "هندسة الحاسوب"]),
   ("ceng", ["computer engineering", "ce", "comp eng", "bilgisayar mühendisliği", "هندسة الحاسوب"]),
   ("computer science", ["cs", "comp sci", "bilgisayar bilimleri", "علوم الحاسوب", "علوم حاسوب"]),
   ("cs", ["computer science", "comp sci", "bilgisayar bilimleri", "علوم الحاسوب"]),
   ("software engineering", ["se", "soft eng", "yazılım mühendisliği", "هندسة البرمجيات"]),
   ("se", ["software engineering", "soft eng", "yazılım mühendisliği", "هندسة البرمجيات"]),
   ("electrical engineering",
     ["ee", "elec eng", "elektrik mühendisliği", "الهندسة الكهربائية", "هندسة كهربائية"]),
   ("ee", ["electrical engineering", "elec eng", "elektrik mühendisliği", "الهندسة الكهربائية"]),
   ("electronics", ["electronic engineering", "elektronik", "إلكترونيات"]),
   ("business administration", ["ba", "business", "işletme", "إدارة الأعمال", "ادارة اعمال"]),
   ("mba", ["master of business administration", "business administration", "ماجستير إدارة الأعمال"]),
   ("medicine", ["md", "tıp", "الطب", "طب"]),
   ("medical", ["medicine", "tıp", "طب"]),
   ("architecture", ["arch", "mimarlık", "الهندسة المعمارية", "عمارة"]),
   ("law", ["llb", "hukuk", "القانون", "قانون"]),
   ("psychology", ["psych", "psikoloji", "علم النفس"]),
   ("nursing", ["hemşirelik", "التمريض", "تمريض"]),
   ("engineering", ["eng", "mühendislik", "هندسة"])]

/-- Characters kept by the normalisation regex: ASCII word characters,
whitespace and the Arabic block U+0600-U+06FF. -/
def keepChar (c : Char) : Bool :=
  c.isAlphanum || c == '_' || c.isWhitespace ||
    (decide (0x600 ≤ c.toNat) && decide (c.toNat ≤ 0x6FF))

/-- Trim whitespace from both ends of a character list (String.prototype.trim). -/
def trimChars (l : List Char) : List Char :=
  ((l.dropWhile Char.isWhitespace).reverse.dropWhile Char.isWhitespace).reverse

/-- Model of normalizeKeyword from search-programs.ts: lower-case, strip
punctuation, trim. -/
def normalizeKeyword (s : String) : String :=
  ⟨trimChars ((s.data.map jsToLowerChar).filter keepChar)⟩

/-- Property access KEYWORD_SYNONYMS[normalized]. -/
def synonymsOf (normalized : String) : Option (List String) :=
  (KEYWORD_SYNONYMS.find? (fun e => e.1 == normalized)).map (fun e => e.2)

/-- Insertion into the expansion set (a JS Set preserves insertion order and
ignores duplicates). -/
def addToSet (s : List String) (x : String) : List String :=
  if s.contains x then s else s ++ [x]

/-- Synonym-applied annotation recorded for one keyword. -/
def synonymNote (keyword : String) (synonyms : List String) : String :=
  "\"" ++ keyword ++ "\" → [" ++ ", ".intercalate (synonyms.take 3) ++
    (if 3 < synonyms.length then "..." else "") ++ "]"

/-- Body of the expandKeywords loop for one keyword: add its normalisation,
the members of its own synonym group (recording an annotation), and every
group whose member list contains it. -/
def expandStep (acc : List String × List String) (keyword : String) :
    List String × List String :=
  let normalized := normalizeKeyword keyword
  let expanded0 := addToSet acc.1 normalized
  let withDirect : List String × List String :=
    match synonymsOf normalized with
    | some synonyms =>
      ((synonyms.map normalizeKeyword).foldl addToSet expanded0,
        acc.2 ++ [synonymNote keyword synonyms])
    | none => (expanded0, acc.2)
  let expanded2 :=
    KEYWORD_SYNONYMS.foldl
      (fun e entry =>
        if entry.2.any (fun s => normalizeKeyword s == normalized) then
          (entry.2.map normalizeKeyword).foldl addToSet (addToSet e (normalizeKeyword entry.1))
        else e)
      withDirect.1
  (expanded2, withDirect.2)

/-- Model of expandKeywords from search-programs.ts.  Returns the expansion
set and the synonym-applied annotations. -/
def expandKeywords (keywords : List String) : List String × List String :=
  keywords.foldl expandStep ([], [])

/-- Membership of two strings in one synonym group of the table, both taken
up to normalisation: the single-step relation whose reflexive-transitive
closure is the transitive synonym closure. -/
def synStep (a b : String) : Prop :=
  ∃ entry ∈ KEYWORD_SYNONYMS,
    (a = normalizeKeyword entry.1 ∨ ∃ s ∈ entry.2, a = normalizeKeyword s) ∧
    (b = normalizeKeyword entry.1 ∨ ∃ s ∈ entry.2, b = normalizeKeyword s)

/-- Error code of a tool response, if any. -/
def responseCode {α : Type} : ToolResponse α → Option String
  | ToolResponse.ok _ => none
  | ToolResponse.err code _ _ => some code

/-- Week count of a successful timeline. -/
def timelineWeekCount (r : ToolResponse TimelineData) : Option Nat :=
  match r with
  | ToolResponse.ok d => some d.weeks.length
  | ToolResponse.err _ _ _ => none

/-- Target intake of a successful timeline. -/
def timelineTargetIntake (r : ToolResponse TimelineData) : Option String :=
  match r with
  | ToolResponse.ok d => some d.target_intake
  | ToolResponse.err _ _ _ => none

/-- Assumption list of a successful timeline. -/
def timelineAssumptions (r : ToolResponse TimelineData) : Option (List String) :=
  match r with
  | ToolResponse.ok d => some d.assumptions
  | ToolResponse.err _ _ _ => none

/-- Critical-path list of a successful timeline. -/
def timelineCriticalPath (r : ToolResponse TimelineData) : Option (List String) :=
  match r with
  | ToolResponse.ok d => some d.critical_path_items
  | ToolResponse.err _ _ _ => none

/-- Sample profile: a high-school applicant to a bachelor program. -/
def sampleProfile : Profile :=
  { nationality := "Egyptian"
    current_education_level := EduLevel.high_school
    desired_degree_level := DegreeLevel.bachelor }

/-- Sample catalog: one bachelor program with two intakes and three document
rules exercising override and default flags. -/
def sampleCatalog : Catalog :=
  { programs :=
      [{ id := "p1"
         university_id := "u1"
         degree_level := DegreeLevel.bachelor
         intakes := ["September", "February"] }]
    requirements := []
    document_templates :=
      [{ doc_key := "high_school_diploma"
         label_ar := "شهادة الثانوية"
         label_en := "High School Diploma"
         translation_required_default := true
         notarization_required_default := true
         estimated_days_to_obtain := some 7 },
       { doc_key := "passport_copy"
         label_ar := "جواز السفر"
         label_en := "Passport Copy"
         translation_required_default := true
         notarization_required_default := false
         estimated_days_to_obtain := some 1 },
       { doc_key := "personal_photo"
         label_ar := "صورة شخصية"
         label_en := "Personal Photo"
         translation_required_default := false
         notarization_required_default := false
         estimated_days_to_obtain := some 1 }]
    program_document_rules :=
      [{ program_id := "p1", doc_key := "high_school_diploma" },
       { program_id := "p1"
         doc_key := "passport_copy"
         required_flag := none
         translation_required := some false },
       { program_id := "p1"
         doc_key := "personal_photo"
         required_flag := some false }] }
/-- Profile of a high-school graduate applying to a master program. -/
def masterSeeker : Profile :=
  { nationality := "Jordanian"
    current_education_level := EduLevel.high_school
    desired_degree_level := DegreeLevel.master }

/-- Master program detail with no stored requirements. -/
def emptyMasterDetail : ProgramDetail :=
  { id := "m1"
    degree_level := DegreeLevel.master
    intakes := []
    requirements := []
    documents := [] }

/-- Minimum-GPA rule whose stored value does not parse as a number
(parseFloat yields NaN) nor as JSON. -/
def gpaRuleNaN : Requirement :=
  { rule_type := "gpa_minimum"
    rule_value := { parseFloat := none, langParse := LangParse.throws } }

/-- Minimum-GPA rule with threshold 60. -/
def gpaRule60 : Requirement :=
  { rule_type := "gpa_minimum"
    rule_value := { parseFloat := some 60, langParse := LangParse.throws } }

/-- English language rule requiring IELTS 6. -/
def englishRule : Requirement :=
  { rule_type := "language_proficiency"
    rule_value :=
      { parseFloat := none
        langParse := LangParse.ok { type := some "english", ielts := some 6 } } }

/-- Language rule whose stored value is not valid JSON. -/
def langRuleBroken : Requirement :=
  { rule_type := "language_proficiency"
    rule_value := { parseFloat := none, langParse := LangParse.throws } }

/-- Profile of a bachelor graduate with a declared GPA of 3 and no English
score. -/
def gradWithGpa3 : Profile :=
  { nationality := "Jordanian"
    current_education_level := EduLevel.bachelor
    desired_degree_level := DegreeLevel.master
    gpa := some 3 }

/-- Master program whose gpa_minimum rule has an unparsable value and which
also requires English proficiency. -/
def detailNaNAndEnglish : ProgramDetail :=
  { id := "m2"
    degree_level := DegreeLevel.master
    intakes := []
    requirements := [gpaRuleNaN, englishRule]
    documents := [] }

/-- Master program whose only rule is the unparsable gpa_minimum rule. -/
def detailNaNOnly : ProgramDetail :=
  { id := "m3"
    degree_level := DegreeLevel.master
    intakes := []
    requirements := [gpaRuleNaN]
    documents := [] }

/-- Master program with a parseable GPA rule and an English rule. -/
def detailGpa60English : ProgramDetail :=
  { id := "m4"
    degree_level := DegreeLevel.master
    intakes := []
    requirements := [gpaRule60, englishRule]
    documents := [] }

/-- Profile of a bachelor graduate with GPA 80 and no English score. -/
def gradWithGpa80 : Profile :=
  { nationality := "Jordanian"
    current_education_level := EduLevel.bachelor
    desired_degree_level := DegreeLevel.master
    gpa := some 80 }

/-- Catalog in which a program-scoped and an institution-scoped rule share
the same rule kind. -/
def overlapCatalog : Catalog :=
  { programs :=
      [{ id := "p1"
         university_id := "u1"
         degree_level := DegreeLevel.bachelor
         intakes := [] }]
    requirements :=
      [{ id := "r1"
         program_id := some "p1"
         university_id := none
         rule_type := "gpa_minimum"
         rule_value := { parseFloat := some 60, langParse := LangParse.throws } },
       { id := "r2"
         program_id := none
         university_id := some "u1"
         rule_type := "gpa_minimum"
         rule_value := { parseFloat := some 70, langParse := LangParse.throws } }]
    document_templates := []
    program_document_rules := [] }

/-- Institution-scoped row of overlapCatalog. -/
def overlapInstitutionRow : RequirementRow :=
  { id := "r2"
    program_id := none
    university_id := some "u1"
    rule_type := "gpa_minimum"
    rule_value := { parseFloat := some 70, langParse := LangParse.throws } }
/-- Resolved passport document of sampleCatalog: the explicit false
translation override wins over the template default true, and the absent
required flag resolves to true. -/
def passportResolved : DocumentOutput :=
  { doc_key := "passport_copy"
    label_ar := "جواز السفر"
    label_en := "Passport Copy"
    required := true
    translation_required := false
    notarization_required := false
    notes_ar := none
    notes_en := none
    estimated_days := some 1 }

/-- Program-scoped row of overlapCatalog, sharing its rule kind with the
institution-scoped row. -/
def overlapProgramRow : RequirementRow :=
  { id := "r1"
    program_id := some "p1"
    university_id := none
    rule_type := "gpa_minimum"
    rule_value := { parseFloat := some 60, langParse := LangParse.throws } }

theorem determineStatus_unlikely_of_major (reasons : List Reason) (missing : List String)
    (r : Reason) (hm : r ∈ reasons) (hp : r.passed = false) (hd : r.data_driven = true)
    (hmf : majorFailureCheck r = true) :
    determineStatus reasons missing = Status.unlikely := by
  unfold determineStatus
  have h1 : r ∈ reasons.filter (fun r => !r.passed && r.data_driven) := by
    rw [List.mem_filter]
    exact ⟨hm, by rw [hp, hd]; rfl⟩
  have h2 : r ∈ (reasons.filter (fun r => !r.passed && r.data_driven)).filter majorFailureCheck := by
    rw [List.mem_filter]
    exact ⟨h1, hmf⟩
  rw [if_pos]
  exact ⟨List.length_pos.mpr (List.ne_nil_of_mem h1), List.length_pos.mpr (List.ne_nil_of_mem h2)⟩

theorem determineStatus_needs_review (reasons : List Reason) (missing : List String)
    (hmaj : ∀ r ∈ reasons, r.passed = false → majorFailureCheck r = false)
    (hmiss : missing ≠ []) :
    determineStatus reasons missing = Status.needs_review := by
  unfold determineStatus
  rw [if_neg, if_pos (List.length_pos.mpr hmiss)]
  intro hcon
  obtain ⟨hf, hmj⟩ := hcon
  obtain ⟨r, hr⟩ := List.exists_mem_of_ne_nil _ (List.length_pos.mp hmj)
  rw [List.mem_filter, List.mem_filter] at hr
  obtain ⟨⟨hmem, hflag⟩, hcheck⟩ := hr
  have hp : r.passed = false := by
    cases hpass : r.passed
    · rfl
    · rw [hpass] at hflag
      simp at hflag
  rw [hmaj r hmem hp] at hcheck
  exact Bool.false_ne_true hcheck

theorem educationReason_data_driven (e : EduCheck) :
    (educationReason e).data_driven = true := by
  unfold educationReason
  split <;> rfl

theorem educationReason_major (current : EduLevel) (desired : DegreeLevel)
    (h : (checkEducationLevel current desired).passed = false) :
    (educationReason (checkEducationLevel current desired)).passed = false ∧
    majorFailureCheck (educationReason (checkEducationLevel current desired)) = true := by
  revert h
  cases current <;> cases desired <;> decide
theorem evaluateRequirement_gpa_fail (req : Requirement) (profile : Profile)
    (ht : req.rule_type = "gpa_minimum") (g t : ℚ) (hg : profile.gpa = some g)
    (hpf : req.rule_value.parseFloat = some t) (hlt : g < t) :
    ∃ r, (evaluateRequirement req profile).reason = some r ∧
      r.passed = false ∧ r.data_driven = true ∧ majorFailureCheck r = true := by
  unfold evaluateRequirement
  rw [if_pos ht, hg, hpf]
  have hfalse : decide (t ≤ g) = false := decide_eq_false (not_le.mpr hlt)
  refine ⟨_, rfl, ?_, rfl, ?_⟩
  · exact hfalse
  · unfold majorFailureCheck
    rfl

/-- C1: for every profile and every found program, a failed education-level
prerequisite or a declared GPA strictly below a parsed gpa_minimum threshold
forces status unlikely, regardless of any other missing data. -/
theorem eligibility_hard_disqualifier_unlikely (profile : Profile) (detail : ProgramDetail)
    (h : (checkEducationLevel profile.current_education_level detail.degree_level).passed = false ∨
      ∃ req ∈ detail.requirements, req.rule_type = "gpa_minimum" ∧
        ∃ g t : ℚ, profile.gpa = some g ∧ req.rule_value.parseFloat = some t ∧ g < t) :
    (evaluateEligibility profile detail).status = Status.unlikely := by
  simp only [evaluateEligibility]
  cases h with
  | inl hedu =>
    obtain ⟨hp, hmf⟩ := educationReason_major _ _ hedu
    exact determineStatus_unlikely_of_major _ _ _ (List.mem_cons_self _ _) hp
      (educationReason_data_driven _) hmf
  | inr hgpa =>
    obtain ⟨req, hreq, ht, g, t, hg, hpf, hlt⟩ := hgpa
    obtain ⟨r, hr, hp, hd, hmf⟩ := evaluateRequirement_gpa_fail req profile ht g t hg hpf hlt
    refine determineStatus_unlikely_of_major _ _ r ?_ hp hd hmf
    apply List.mem_cons_of_mem
    rw [List.mem_filterMap]
    exact ⟨evaluateRequirement req profile, List.mem_map.mpr ⟨req, hreq, rfl⟩, hr⟩

/-- Witness for C1 at a concrete input: a high-school applicant to a master
program is evaluated unlikely. -/
theorem eligibility_hard_disqualifier_unlikely_witness :
    (checkEducationLevel masterSeeker.current_education_level
        emptyMasterDetail.degree_level).passed = false ∧
    (evaluateEligibility masterSeeker emptyMasterDetail).status = Status.unlikely :=
  ⟨by decide,
   eligibility_hard_disqualifier_unlikely masterSeeker emptyMasterDetail (Or.inl (by decide))⟩
theorem jsIndexOf_cons (x : String) (xs : List String) (s : String) :
    jsIndexOf (x :: xs) s =
      if x = s then 0
      else if jsIndexOf xs s = -1 then -1 else jsIndexOf xs s + 1 := by
  conv_lhs => unfold jsIndexOf
  by_cases hx : x = s
  · rw [if_pos hx, if_pos hx]
  · rw [if_neg hx, if_neg hx]
    by_cases hm : jsIndexOf xs s = -1
    · rw [hm]; simp
    · rw [if_neg hm]
      split
      · exact absurd (by assumption) hm
      · rfl
theorem jsIndexOf_ge_neg_one (l : List String) (s : String) : -1 ≤ jsIndexOf l s := by
  induction l with
  | nil => simp [jsIndexOf]
  | cons x xs ih =>
    rw [jsIndexOf_cons]
    split
    · omega
    · split <;> omega

theorem mem_of_jsIndexOf_nonneg (l : List String) (s : String) (h : 0 ≤ jsIndexOf l s) :
    s ∈ l := by
  induction l with
  | nil => simp [jsIndexOf] at h
  | cons x xs ih =>
    rw [jsIndexOf_cons] at h
    by_cases hx : x = s
    · rw [hx]; exact List.mem_cons_self _ _
    · rw [if_neg hx] at h
      apply List.mem_cons_of_mem
      apply ih
      have hlb := jsIndexOf_ge_neg_one xs s
      by_cases hm : jsIndexOf xs s = -1
      · rw [if_pos hm] at h; omega
      · rw [if_neg hm] at h; omega
theorem evaluateRequirement_no_major (req : Requirement) (profile : Profile)
    (hgpa : req.rule_type = "gpa_minimum" → ∀ g, profile.gpa = some g →
      ∃ t, req.rule_value.parseFloat = some t ∧ t ≤ g) :
    ∀ r, (evaluateRequirement req profile).reason = some r →
      r.passed = false → majorFailureCheck r = false := by
  intro r hr hp
  unfold evaluateRequirement at hr
  by_cases h1 : req.rule_type = "gpa_minimum"
  · rw [if_pos h1] at hr
    cases hg : profile.gpa with
    | none => rw [hg] at hr; simp at hr
    | some g =>
      rw [hg] at hr
      obtain ⟨t, hpf, hle⟩ := hgpa h1 g hg
      rw [hpf] at hr
      dsimp only at hr
      obtain rfl := Option.some.inj hr
      dsimp only at hp
      rw [decide_eq_true hle] at hp
      exact absurd hp (by decide)
  · rw [if_neg h1] at hr
    by_cases h2 : req.rule_type = "language_proficiency"
    · rw [if_pos h2] at hr
      cases hlp : req.rule_value.langParse with
      | throws => rw [hlp] at hr; simp at hr
      | ok payload =>
        rw [hlp] at hr
        dsimp only at hr
        by_cases he : payload.type = some "english"
        · rw [if_pos he] at hr
          cases hes : profile.english_score with
          | none => rw [hes] at hr; simp at hr
          | some es =>
            rw [hes] at hr
            dsimp only at hr
            obtain rfl := Option.some.inj hr
            dsimp only at hp
            rw [hp]
            decide
        · rw [if_neg he] at hr
          by_cases htk : payload.type = some "turkish"
          · rw [if_pos htk] at hr
            cases hts : profile.turkish_score with
            | none => rw [hts] at hr; simp at hr
            | some ts =>
              rw [hts] at hr
              dsimp only at hr
              obtain rfl := Option.some.inj hr
              dsimp only at hp
              rw [hp]
              have hlt : jsIndexOf ["A1", "A2", "B1", "B2", "C1", "C2"] ts.level <
                  jsIndexOf ["A1", "A2", "B1", "B2", "C1", "C2"]
                    (match payload.tomer with
                     | some s => if s = "" then "B2" else s
                     | none => "B2") := by
                have := of_decide_eq_false hp
                omega
              have hreqmem : (match payload.tomer with
                  | some s => if s = "" then "B2" else s
                  | none => "B2") ∈ ["A1", "A2", "B1", "B2", "C1", "C2"] := by
                apply mem_of_jsIndexOf_nonneg
                have := jsIndexOf_ge_neg_one ["A1", "A2", "B1", "B2", "C1", "C2"] ts.level
                omega
              revert hlt
              generalize (match payload.tomer with
                  | some s => if s = "" then "B2" else s
                  | none => "B2") = rl at hreqmem ⊢
              intro hlt
              simp only [List.mem_cons, List.not_mem_nil, or_false] at hreqmem
              rcases hreqmem with rfl | rfl | rfl | rfl | rfl | rfl
              · decide
              · decide
              · decide
              · decide
              · decide
              · decide
          · rw [if_neg htk] at hr
            simp at hr
    · rw [if_neg h2] at hr
      by_cases h3 : req.rule_type = "portfolio_required"
      · rw [if_pos h3] at hr
        cases hpo : profile.has_portfolio with
        | none => rw [hpo] at hr; simp at hr
        | some b =>
          rw [hpo] at hr
          dsimp only at hr
          obtain rfl := Option.some.inj hr
          dsimp only at hp
          rw [hp]
          decide
      · rw [if_neg h3] at hr
        by_cases h4 : req.rule_type = "work_experience"
        · rw [if_pos h4] at hr
          cases hw : profile.work_experience_years with
          | none => rw [hw] at hr; simp at hr
          | some _ => rw [hw] at hr; simp at hr
        · rw [if_neg h4] at hr
          simp at hr
theorem evaluateRequirement_missing (req : Requirement) (profile : Profile)
    (h : (evaluateRequirement req profile).missingFields ≠ []) :
    (evaluateRequirement req profile).reason = none ∧
    (evaluateRequirement req profile).missingInfo ≠ [] := by
  unfold evaluateRequirement at h ⊢
  by_cases h1 : req.rule_type = "gpa_minimum"
  · rw [if_pos h1] at h ⊢
    cases hg : profile.gpa with
    | none => exact ⟨rfl, by simp⟩
    | some g => rw [hg] at h; simp at h
  · rw [if_neg h1] at h ⊢
    by_cases h2 : req.rule_type = "language_proficiency"
    · rw [if_pos h2] at h ⊢
      cases hlp : req.rule_value.langParse with
      | throws => rw [hlp] at h; simp at h
      | ok payload =>
        rw [hlp] at h
        dsimp only at h ⊢
        by_cases he : payload.type = some "english"
        · rw [if_pos he] at h ⊢
          cases hes : profile.english_score with
          | none => exact ⟨rfl, by simp⟩
          | some es => rw [hes] at h; simp at h
        · rw [if_neg he] at h ⊢
          by_cases htk : payload.type = some "turkish"
          · rw [if_pos htk] at h ⊢
            cases hts : profile.turkish_score with
            | none => exact ⟨rfl, by simp⟩
            | some ts => rw [hts] at h; simp at h
          · rw [if_neg htk] at h; simp at h
    · rw [if_neg h2] at h ⊢
      by_cases h3 : req.rule_type = "portfolio_required"
      · rw [if_pos h3] at h ⊢
        cases hpo : profile.has_portfolio with
        | none => exact ⟨rfl, by simp⟩
        | some b => rw [hpo] at h; simp at h
      · rw [if_neg h3] at h ⊢
        by_cases h4 : req.rule_type = "work_experience"
        · rw [if_pos h4] at h ⊢
          cases hw : profile.work_experience_years with
          | none => exact ⟨rfl, by simp⟩
          | some y => rw [hw] at h; simp at h
        · rw [if_neg h4] at h; simp at h
theorem educationReason_passed (e : EduCheck) (h : e.passed = true) :
    (educationReason e).passed = true := by
  unfold educationReason
  rw [if_pos h]

/-- C2 (amended): when the education prerequisite passes, every gpa_minimum
rule parses to a threshold met by the declared GPA (or no GPA is declared),
and some rule records missing data, the status is needs_review and never
unlikely; every recorded missing field appears in missing_fields, and a rule
that records missing data contributes no reason. -/
theorem eligibility_missing_needs_review (profile : Profile) (detail : ProgramDetail)
    (hedu : (checkEducationLevel profile.current_education_level detail.degree_level).passed = true)
    (hgpa : ∀ req ∈ detail.requirements, req.rule_type = "gpa_minimum" →
      ∀ g, profile.gpa = some g → ∃ t, req.rule_value.parseFloat = some t ∧ t ≤ g)
    (hmiss : ∃ req ∈ detail.requirements, (evaluateRequirement req profile).missingFields ≠ []) :
    (evaluateEligibility profile detail).status = Status.needs_review ∧
    (evaluateEligibility profile detail).status ≠ Status.unlikely ∧
    (∀ f req, req ∈ detail.requirements →
      f ∈ (evaluateRequirement req profile).missingFields →
      f ∈ (evaluateEligibility profile detail).missing_fields) ∧
    (∀ req ∈ detail.requirements, (evaluateRequirement req profile).missingFields ≠ [] →
      (evaluateRequirement req profile).reason = none) := by
  have hstat : (evaluateEligibility profile detail).status = Status.needs_review := by
    simp only [evaluateEligibility]
    apply determineStatus_needs_review
    · intro r hr hp
      rcases List.mem_cons.mp hr with heq | hmem
      · exfalso
        rw [heq] at hp
        rw [educationReason_passed _ hedu] at hp
        exact absurd hp (by decide)
      · rw [List.mem_filterMap] at hmem
        obtain ⟨e, he, her⟩ := hmem
        rw [List.mem_map] at he
        obtain ⟨req, hreq, rfl⟩ := he
        exact evaluateRequirement_no_major req profile (fun h1 => hgpa req hreq h1) r her hp
    · obtain ⟨req, hreq, hne⟩ := hmiss
      obtain ⟨-, hinfo⟩ := evaluateRequirement_missing req profile hne
      obtain ⟨x, hx⟩ := List.exists_mem_of_ne_nil _ hinfo
      apply List.ne_nil_of_mem
      rw [List.mem_flatten]
      exact ⟨(evaluateRequirement req profile).missingInfo,
        List.mem_map.mpr ⟨evaluateRequirement req profile,
          List.mem_map.mpr ⟨req, hreq, rfl⟩, rfl⟩, hx⟩
  refine ⟨hstat, by rw [hstat]; decide, ?_, ?_⟩
  · intro f req hreq hf
    simp only [evaluateEligibility]
    rw [List.mem_flatten]
    exact ⟨(evaluateRequirement req profile).missingFields,
      List.mem_map.mpr ⟨evaluateRequirement req profile,
        List.mem_map.mpr ⟨req, hreq, rfl⟩, rfl⟩, hf⟩
  · intro req hreq hne
    exact (evaluateRequirement_missing req profile hne).1
theorem evaluateRequirement_lang_throws (req : Requirement) (profile : Profile)
    (ht : req.rule_type = "language_proficiency")
    (hlp : req.rule_value.langParse = LangParse.throws) :
    evaluateRequirement req profile =
      { reason := none, missingInfo := [], missingFields := [],
        assumptions := ["Could not parse language requirement - defaulting to needs review"] } := by
  unfold evaluateRequirement
  rw [if_neg (by rw [ht]; decide), if_pos ht, hlp]

/-- C3 (amended): a language_proficiency rule whose value is not valid JSON is
recorded as an assumption, contributes no reason and no missing data, and
leaves the resulting status unchanged; but a gpa_minimum rule whose value does
not parse as a number is scored with a NaN comparison: with a declared GPA it
contributes a failed gpa_minimum reason (a hard failure) and no assumption. -/
theorem unparsable_rule_handling :
    (∀ req profile, req.rule_type = "language_proficiency" →
      req.rule_value.langParse = LangParse.throws →
      evaluateRequirement req profile =
        { reason := none, missingInfo := [], missingFields := [],
          assumptions := ["Could not parse language requirement - defaulting to needs review"] }) ∧
    (∀ (profile : Profile) (pid : String) (dl : DegreeLevel) (ik : List String)
        (docs : List DocumentOutput) (l1 l2 : List Requirement) (req : Requirement),
      req.rule_type = "language_proficiency" →
      req.rule_value.langParse = LangParse.throws →
      (evaluateEligibility profile
        { id := pid, degree_level := dl, intakes := ik,
          requirements := l1 ++ req :: l2, documents := docs }).status =
      (evaluateEligibility profile
        { id := pid, degree_level := dl, intakes := ik,
          requirements := l1 ++ l2, documents := docs }).status) ∧
    (∀ (req : Requirement) (profile : Profile) (g : ℚ), req.rule_type = "gpa_minimum" →
      req.rule_value.parseFloat = none → profile.gpa = some g →
      ∃ r, (evaluateRequirement req profile).reason = some r ∧
        r.passed = false ∧ r.rule_type = "gpa_minimum" ∧
        (evaluateRequirement req profile).assumptions = []) := by
  refine ⟨evaluateRequirement_lang_throws, ?_, ?_⟩
  · intro profile pid dl ik docs l1 l2 req ht hlp
    have hreq := evaluateRequirement_lang_throws req profile ht hlp
    simp only [evaluateEligibility, List.map_append, List.map_cons, List.filterMap_append,
      List.filterMap_cons, List.flatten_append, List.flatten_cons, List.nil_append, hreq]
  · intro req profile g ht hpf hg
    unfold evaluateRequirement
    rw [if_pos ht, hg, hpf]
    exact ⟨_, rfl, rfl, rfl, rfl⟩

/-- Counterexample to C3 as stated: the program detailNaNOnly stores a single
gpa_minimum rule whose value parses neither as a number nor as JSON; against a
profile with a declared GPA the evaluator records no assumption, reports a
failed reason against the student and returns unlikely. -/
theorem unparsable_rule_counterexample :
    gpaRuleNaN.rule_value.parseFloat = none ∧
    (evaluateEligibility gradWithGpa3 detailNaNOnly).status = Status.unlikely ∧
    (evaluateEligibility gradWithGpa3 detailNaNOnly).assumptions = [] ∧
    (evaluateRequirement gpaRuleNaN gradWithGpa3).reason ≠ none := by
  decide

/-- Witness for C3 (amended) at concrete inputs: a broken language rule
produces exactly the assumption record, inserting it does not change the
status, and the unparsable gpa_minimum rule yields a failed reason with no
assumption. -/
theorem unparsable_rule_handling_witness :
    evaluateRequirement langRuleBroken sampleProfile =
      { reason := none, missingInfo := [], missingFields := [],
        assumptions := ["Could not parse language requirement - defaulting to needs review"] } ∧
    (evaluateEligibility gradWithGpa3
      { id := "m5", degree_level := DegreeLevel.master, intakes := [],
        requirements := [langRuleBroken], documents := [] }).status =
    (evaluateEligibility gradWithGpa3
      { id := "m5", degree_level := DegreeLevel.master, intakes := [],
        requirements := [], documents := [] }).status ∧
    (evaluateRequirement gpaRuleNaN gradWithGpa3).assumptions = [] := by
  refine ⟨unparsable_rule_handling.1 langRuleBroken sampleProfile rfl rfl, ?_, ?_⟩
  · exact unparsable_rule_handling.2.1 gradWithGpa3 "m5" DegreeLevel.master [] [] [] []
      langRuleBroken rfl rfl
  · obtain ⟨r, -, -, -, ha⟩ := unparsable_rule_handling.2.2 gpaRuleNaN gradWithGpa3 3 rfl rfl rfl
    exact ha

/-- Counterexample to C2 as stated: for gradWithGpa3 the education
prerequisite passes and no declared GPA is below any parsed gpa_minimum
threshold (the stored rule value parses to none), while the English rule
records english_score as missing; yet the evaluator returns unlikely instead
of needs_review. -/
theorem eligibility_missing_counterexample :
    (checkEducationLevel gradWithGpa3.current_education_level
        detailNaNAndEnglish.degree_level).passed = true ∧
    gpaRuleNaN.rule_value.parseFloat = none ∧
    "english_score" ∈ (evaluateEligibility gradWithGpa3 detailNaNAndEnglish).missing_fields ∧
    (evaluateEligibility gradWithGpa3 detailNaNAndEnglish).status = Status.unlikely := by
  decide

/-- Witness for C2 (amended) at concrete inputs: GPA 80 meets the stored
threshold 60, the English score is missing, and the status is needs_review
with english_score recorded. -/
theorem eligibility_missing_needs_review_witness :
    (evaluateEligibility gradWithGpa80 detailGpa60English).status = Status.needs_review ∧
    "english_score" ∈ (evaluateEligibility gradWithGpa80 detailGpa60English).missing_fields := by
  have h := eligibility_missing_needs_review gradWithGpa80 detailGpa60English (by decide)
    (by
      intro req hreq ht g hg
      have hreq2 : req = gpaRule60 ∨ req = englishRule := by
        simpa [detailGpa60English] using hreq
      rcases hreq2 with rfl | rfl
      · refine ⟨60, rfl, ?_⟩
        have hg2 : (80 : ℚ) = g := by simpa [gradWithGpa80] using hg
        rw [← hg2]
        norm_num
      · exact absurd ht (by decide))
    ⟨englishRule, by decide, by decide⟩
  exact ⟨h.1, h.2.2.1 "english_score" englishRule (by decide) (by decide)⟩
/-- C4: every resolved document of a program arises from a program-scoped
document rule joined to its template; its translation and notarization flags
equal the explicit override value whenever one is set (true or false) and the
template default when the override is unset, and an absent required flag
resolves to required = true. -/
theorem document_resolution_override (cat : Catalog) (programId : String)
    (out : DocumentOutput) (hmem : out ∈ getDocuments cat programId) :
    ∃ pdr ∈ cat.program_document_rules, pdr.program_id = programId ∧
      ∃ dt, findTemplate cat pdr.doc_key = some dt ∧
        (∀ b, pdr.translation_required = some b → out.translation_required = b) ∧
        (pdr.translation_required = none →
          out.translation_required = dt.translation_required_default) ∧
        (∀ b, pdr.notarization_required = some b → out.notarization_required = b) ∧
        (pdr.notarization_required = none →
          out.notarization_required = dt.notarization_required_default) ∧
        (∀ b, pdr.required_flag = some b → out.required = b) ∧
        (pdr.required_flag = none → out.required = true) := by
  unfold getDocuments at hmem
  rw [List.mem_filterMap] at hmem
  obtain ⟨pdr, hpdr, hmap⟩ := hmem
  rw [List.mem_filter] at hpdr
  obtain ⟨hpdr, hpid⟩ := hpdr
  cases hft : findTemplate cat pdr.doc_key with
  | none => rw [hft] at hmap; simp at hmap
  | some dt =>
    rw [hft] at hmap
    simp only [Option.map_some'] at hmap
    obtain rfl := Option.some.inj hmap
    refine ⟨pdr, hpdr, by simpa using hpid, dt, hft, ?_, ?_, ?_, ?_, ?_, ?_⟩
    · intro b hb; dsimp only; rw [hb]; rfl
    · intro hb; dsimp only; rw [hb]; rfl
    · intro b hb; dsimp only; rw [hb]; rfl
    · intro hb; dsimp only; rw [hb]; rfl
    · intro b hb; dsimp only; rw [hb]; rfl
    · intro hb; dsimp only; rw [hb]; rfl

/-- Witness for C4 at a concrete input: the resolved passport document of
sampleCatalog carries translation_required = false from its explicit override
(the template default is true) and required = true from the absent flag. -/
theorem document_resolution_override_witness :
    passportResolved ∈ getDocuments sampleCatalog "p1" ∧
    (∃ pdr ∈ sampleCatalog.program_document_rules, pdr.program_id = "p1" ∧
      ∃ dt, findTemplate sampleCatalog pdr.doc_key = some dt ∧
        (∀ b, pdr.translation_required = some b → passportResolved.translation_required = b) ∧
        (pdr.translation_required = none →
          passportResolved.translation_required = dt.translation_required_default) ∧
        (∀ b, pdr.notarization_required = some b → passportResolved.notarization_required = b) ∧
        (pdr.notarization_required = none →
          passportResolved.notarization_required = dt.notarization_required_default) ∧
        (∀ b, pdr.required_flag = some b → passportResolved.required = b) ∧
        (pdr.required_flag = none → passportResolved.required = true)) :=
  ⟨by decide, document_resolution_override sampleCatalog "p1" passportResolved (by decide)⟩
/-- C9 (amended): the requirement rows used for a program are exactly the
program-scoped rows together with all institution-scoped rows (NULL program
id) of the program's university; no filtering by rule kind is performed, so a
program-level rule does not suppress an institution-level rule of the same
kind. -/
theorem requirement_two_tier_lookup (cat : Catalog) (programId : String) (p : ProgramRow)
    (hp : cat.programs.find? (fun q => q.id == programId) = some p) (row : RequirementRow) :
    row ∈ getRequirementRows cat programId ↔
      row ∈ cat.requirements ∧
        (row.program_id = some programId ∨
          (row.program_id = none ∧ row.university_id = some p.university_id)) := by
  unfold getRequirementRows programUniversity
  rw [hp, List.mem_filter]
  simp only [Option.map_some']
  constructor
  · rintro ⟨hmem, hcond⟩
    refine ⟨hmem, ?_⟩
    simpa only [Bool.or_eq_true, Bool.and_eq_true, beq_iff_eq] using hcond
  · rintro ⟨hmem, hcond⟩
    refine ⟨hmem, ?_⟩
    simpa only [Bool.or_eq_true, Bool.and_eq_true, beq_iff_eq] using hcond

/-- Counterexample to C9 as stated: in overlapCatalog a program-scoped
gpa_minimum rule exists, yet the institution-scoped gpa_minimum row is still
returned, so institution rules are not restricted to rule kinds lacking a
program-level override. -/
theorem requirement_two_tier_counterexample :
    overlapProgramRow ∈ getRequirementRows overlapCatalog "p1" ∧
    overlapProgramRow.program_id = some "p1" ∧
    overlapInstitutionRow ∈ getRequirementRows overlapCatalog "p1" ∧
    overlapInstitutionRow.program_id = none ∧
    overlapInstitutionRow.rule_type = overlapProgramRow.rule_type ∧
    (getRequirementRows overlapCatalog "p1").length = 2 := by
  decide

/-- Witness for C9 (amended) at a concrete input: the institution-scoped row
of overlapCatalog is selected for program p1. -/
theorem requirement_two_tier_lookup_witness :
    overlapInstitutionRow ∈ getRequirementRows overlapCatalog "p1" := by
  have h := requirement_two_tier_lookup overlapCatalog "p1"
    { id := "p1", university_id := "u1", degree_level := DegreeLevel.bachelor, intakes := [] }
    (by decide) overlapInstitutionRow
  exact h.mpr ⟨by decide, Or.inr ⟨rfl, rfl⟩⟩
/-- C6 (amended): for a program id absent from the catalog, buildTimeline
always fails — never an empty-but-successful timeline — but the failure is the
generic CHECKLIST_ERROR produced when wrapping the document planner's failed
response, not the propagated PROGRAM_NOT_FOUND condition. -/
theorem timeline_unknown_program (profile : Profile) (programId : String)
    (intakeTarget : Option String) (cat : Catalog) (today : Int)
    (h : getProgramDetail cat programId = none) :
    buildTimeline profile programId intakeTarget cat today =
      ToolResponse.err "CHECKLIST_ERROR" "لم نتمكن من تحديد المستندات المطلوبة"
        "Could not determine required documents" := by
  unfold buildTimeline buildDocumentChecklist
  rw [h]

/-- Counterexample to C6 as stated: for an unknown program id the timeline
tool fails with error code CHECKLIST_ERROR, not with the distinct
PROGRAM_NOT_FOUND condition reported by the document planner. -/
theorem timeline_unknown_program_counterexample :
    responseCode (buildTimeline sampleProfile "ghost" none sampleCatalog 0) =
      some "CHECKLIST_ERROR" ∧
    responseCode (buildTimeline sampleProfile "ghost" none sampleCatalog 0) ≠
      some "PROGRAM_NOT_FOUND" := by
  decide

/-- Witness for C6 (amended) at a concrete input. -/
theorem timeline_unknown_program_witness :
    getProgramDetail sampleCatalog "ghost" = none ∧
    buildTimeline sampleProfile "ghost" none sampleCatalog 0 =
      ToolResponse.err "CHECKLIST_ERROR" "لم نتمكن من تحديد المستندات المطلوبة"
        "Could not determine required documents" :=
  ⟨by decide, timeline_unknown_program sampleProfile "ghost" none sampleCatalog 0 (by decide)⟩
theorem generateWeeklySchedule_length (tasks : List TimelineCalcTask) (totalWeeks : Nat)
    (cp : List String) (today : Int) :
    (generateWeeklySchedule tasks totalWeeks cp today).length = totalWeeks := by
  unfold generateWeeklySchedule
  rw [List.length_map, List.length_range]

theorem generateWeeklySchedule_week_number (tasks : List TimelineCalcTask) (totalWeeks : Nat)
    (cp : List String) (today : Int) (i : Nat)
    (hi : i < (generateWeeklySchedule tasks totalWeeks cp today).length) :
    ((generateWeeklySchedule tasks totalWeeks cp today).get ⟨i, hi⟩).week_number = i + 1 := by
  unfold generateWeeklySchedule at hi ⊢
  rw [List.get_map]
  dsimp only
  rw [List.get_range]

theorem generateWeeklySchedule_last_submission (tasks : List TimelineCalcTask)
    (cp : List String) (today : Int) (h7 : 7 < (generateWeeklySchedule tasks 8 cp today).length) :
    ∃ t ∈ ((generateWeeklySchedule tasks 8 cp today).get ⟨7, h7⟩).tasks,
      t.doc_key = "submission" := by
  unfold generateWeeklySchedule at h7 ⊢
  rw [List.get_map]
  dsimp only
  rw [List.get_range]
  norm_num

/-- C10: every successful buildTimeline result has exactly 8 weeks numbered 1
through 8 (the fixed default is used whether or not an intake-derived
schedule was available), and the final week's task list contains a submission
task. -/
theorem timeline_eight_weeks (profile : Profile) (programId : String)
    (intakeTarget : Option String) (cat : Catalog) (today : Int) (detail : ProgramDetail)
    (h : getProgramDetail cat programId = some detail) :
    ∃ d, buildTimeline profile programId intakeTarget cat today = ToolResponse.ok d ∧
      d.weeks.length = 8 ∧
      (∀ i (hi : i < d.weeks.length), (d.weeks.get ⟨i, hi⟩).week_number = i + 1) ∧
      (∀ h7 : 7 < d.weeks.length,
        ∃ t ∈ (d.weeks.get ⟨7, h7⟩).tasks, t.doc_key = "submission") := by
  unfold buildTimeline buildDocumentChecklist
  rw [h]
  simp only [ite_self]
  refine ⟨_, rfl, ?_, ?_, ?_⟩
  · exact generateWeeklySchedule_length _ _ _ _
  · intro i hi
    exact generateWeeklySchedule_week_number _ _ _ _ i hi
  · intro h7
    exact generateWeeklySchedule_last_submission _ _ _ h7

/-- Witness for C10 at a concrete input. -/
theorem timeline_eight_weeks_witness :
    timelineWeekCount (buildTimeline sampleProfile "p1" none sampleCatalog 0) = some 8 := by
  obtain ⟨d, hd, hlen, -, -⟩ := timeline_eight_weeks sampleProfile "p1" none sampleCatalog 0
    { id := "p1"
      degree_level := DegreeLevel.bachelor
      intakes := ["September", "February"]
      requirements := getRequirements sampleCatalog "p1"
      documents := getDocuments sampleCatalog "p1" }
    (by decide)
  rw [hd]
  simp [timelineWeekCount, hlen]
theorem mem_insertByCmp {α : Type} (cmp : α → α → Int) (x : α) (l : List α) (y : α) :
    y ∈ insertByCmp cmp x l ↔ y = x ∨ y ∈ l := by
  induction l with
  | nil => simp [insertByCmp]
  | cons z zs ih =>
    unfold insertByCmp
    by_cases hc : cmp x z ≤ 0
    · rw [if_pos hc]
      simp only [List.mem_cons]
    · rw [if_neg hc]
      simp only [List.mem_cons, ih]
      tauto

theorem mem_sortByCmp {α : Type} (cmp : α → α → Int) (l : List α) (y : α) :
    y ∈ sortByCmp cmp l ↔ y ∈ l := by
  induction l with
  | nil => simp [sortByCmp]
  | cons z zs ih =>
    unfold sortByCmp
    rw [mem_insertByCmp, ih, List.mem_cons]

theorem maxDuration_cons (t : TimelineCalcTask) (l : List TimelineCalcTask) :
    maxDuration (t :: l) = t.estimated_days := rfl

theorem insertByCmp_headDom (x : TimelineCalcTask) (l : List TimelineCalcTask)
    (h : ∀ u ∈ l, u.estimated_days ≤ maxDuration l) :
    ∀ u ∈ insertByCmp taskCmp x l, u.estimated_days ≤ maxDuration (insertByCmp taskCmp x l) := by
  cases l with
  | nil =>
    intro u hu
    rw [show insertByCmp taskCmp x [] = [x] from rfl] at hu
    have hux := List.mem_singleton.mp hu
    subst hux
    exact le_refl _
  | cons y ys =>
    unfold insertByCmp
    by_cases hc : taskCmp x y ≤ 0
    · rw [if_pos hc]
      have hyx : y.estimated_days ≤ x.estimated_days := by
        unfold taskCmp at hc
        omega
      intro u hu
      rw [maxDuration_cons]
      rcases List.mem_cons.mp hu with rfl | hu2
      · exact le_refl _
      · exact le_trans (h u hu2) (by rw [maxDuration_cons] at h ⊢; exact hyx)
    · rw [if_neg hc]
      have hxy : x.estimated_days ≤ y.estimated_days := by
        unfold taskCmp at hc
        omega
      intro u hu
      rw [maxDuration_cons]
      rcases List.mem_cons.mp hu with rfl | hu2
      · exact le_refl _
      · rcases (mem_insertByCmp taskCmp x ys u).mp hu2 with rfl | hu3
        · exact hxy
        · exact h u (List.mem_cons_of_mem _ hu3)

theorem sortByCmp_headDom (l : List TimelineCalcTask) :
    ∀ u ∈ sortByCmp taskCmp l,
      u.estimated_days ≤ maxDuration (sortByCmp taskCmp l) := by
  induction l with
  | nil => intro u hu; simp [sortByCmp] at hu
  | cons x xs ih =>
    unfold sortByCmp
    exact insertByCmp_headDom x (sortByCmp taskCmp xs) ih

theorem jsOrNat_pos (o : Option Nat) (fb : Nat) (hfb : 0 < fb) : 0 < jsOrNat o fb := by
  cases o with
  | none => exact hfb
  | some n =>
    show 0 < if n = 0 then fb else n
    by_cases hn : n = 0
    · rw [if_pos hn]; exact hfb
    · rw [if_neg hn]; exact Nat.pos_of_ne_zero hn

theorem taskTotalDays_pos (item : ChecklistItemOutput) : 0 < taskTotalDays item := by
  unfold taskTotalDays
  have h1 : 0 < jsOrNat item.estimated_days (jsOrNat (DEFAULT_TASK_DURATIONS item.doc_key) 7) :=
    jsOrNat_pos _ _ (jsOrNat_pos _ _ (by omega))
  omega

theorem timeline_tasks_no_zero (items : List ChecklistItemOutput) :
    ((sortByCmp taskCmp (timelineTasks items)).any
      (fun t => t.estimated_days == 0)) = false := by
  rw [List.any_eq_false]
  intro t ht
  rw [mem_sortByCmp] at ht
  unfold timelineTasks at ht
  rw [List.mem_map] at ht
  obtain ⟨item, hi, rfl⟩ := ht
  intro hcon
  exact absurd (eq_of_beq hcon) (Nat.pos_iff_ne_zero.mp (taskTotalDays_pos item))
/-- C7 (amended): intake resolution of buildTimeline.  A supplied non-empty
target that fuzzy-matches a declared intake label resolves to the matched
label with no assumption; with no (truthy) target and a non-empty intake list
the first declared label is used with no assumption; a supplied target that
matches no declared label resolves to the supplied target itself (not the
first declared label) and records the 8-week assumption; only with no
declared intakes at all does the default label September (or the supplied
target) apply, with both intake assumptions recorded. -/
theorem timeline_intake_resolution (profile : Profile) (programId : String)
    (target : Option String) (cat : Catalog) (today : Int) (detail : ProgramDetail)
    (h : getProgramDetail cat programId = some detail) :
    ∃ d, buildTimeline profile programId target cat today = ToolResponse.ok d ∧
      (∀ t m, target = some t → t ≠ "" →
        detail.intakes.find? (fun i => intakeMatches t i) = some m →
        d.target_intake = m ∧ d.assumptions = []) ∧
      (∀ first rest, jsTruthyStr target = false → detail.intakes = first :: rest →
        d.target_intake = first ∧ d.assumptions = []) ∧
      (∀ t, target = some t → t ≠ "" →
        detail.intakes.find? (fun i => intakeMatches t i) = none →
        0 < detail.intakes.length →
        d.target_intake = t ∧
        d.assumptions = ["Timeline is based on an 8-week preparation period"]) ∧
      (detail.intakes = [] →
        d.target_intake =
          (match target with
           | some s => if s = "" then "September" else s
           | none => "September") ∧
        d.assumptions = ["Intake dates not available - using generic 8-week timeline",
          "Timeline is based on an 8-week preparation period"]) := by
  unfold buildTimeline buildDocumentChecklist
  rw [h]
  have hzero := timeline_tasks_no_zero (checklistItems profile detail)
  refine ⟨_, rfl, ?_, ?_, ?_, ?_⟩
  · intro t m htar hne hfind
    subst htar
    have hres : resolveIntake (some t) detail.intakes = (m, true, []) := by
      unfold resolveIntake
      have hmem := List.mem_of_find?_eq_some hfind
      rw [if_pos (List.length_pos.mpr (List.ne_nil_of_mem hmem))]
      rw [if_pos (show jsTruthyStr (some t) = true by simp [jsTruthyStr, hne])]
      simp only [Option.getD_some]
      rw [hfind]
    dsimp only
    rw [hres]
    simp [hzero]
  · intro first rest hfalse hintakes
    have hres : resolveIntake target detail.intakes = (first, true, []) := by
      unfold resolveIntake
      rw [hintakes]
      rw [if_pos (by simp)]
      rw [if_neg (by rw [hfalse]; simp)]
      rfl
    dsimp only
    rw [hres]
    simp [hzero]
  · intro t htar hne hfind hpos
    subst htar
    have hres : resolveIntake (some t) detail.intakes = (t, false, []) := by
      unfold resolveIntake
      rw [if_pos hpos]
      rw [if_pos (show jsTruthyStr (some t) = true by simp [jsTruthyStr, hne])]
      simp only [Option.getD_some]
      rw [hfind]
      rw [if_neg hne]
    dsimp only
    rw [hres]
    simp [hzero]
  · intro hintakes
    have hres : resolveIntake target detail.intakes =
        ((match target with
          | some s => if s = "" then "September" else s
          | none => "September"), false,
         ["Intake dates not available - using generic 8-week timeline"]) := by
      unfold resolveIntake
      rw [hintakes]
      rw [if_neg (by simp)]
    dsimp only
    rw [hres]
    simp [hzero]
/-- Counterexample to C7 as stated: for a program with declared intakes
September and February and the unmatched supplied target July, the result's
target intake is July — not the first declared label September — and an
assumption is recorded although the program declares intakes. -/
theorem timeline_intake_counterexample :
    timelineTargetIntake (buildTimeline sampleProfile "p1" (some "July") sampleCatalog 0) =
      some "July" ∧
    timelineTargetIntake (buildTimeline sampleProfile "p1" (some "July") sampleCatalog 0) ≠
      some "September" ∧
    timelineAssumptions (buildTimeline sampleProfile "p1" (some "July") sampleCatalog 0) =
      some ["Timeline is based on an 8-week preparation period"] := by
  decide

/-- Witness for C7 (amended): the concrete scenario of the claim — intakes
September and February with no supplied target — yields September with no
intake assumption. -/
theorem timeline_intake_resolution_witness :
    timelineTargetIntake (buildTimeline sampleProfile "p1" none sampleCatalog 0) =
      some "September" ∧
    timelineAssumptions (buildTimeline sampleProfile "p1" none sampleCatalog 0) = some [] := by
  obtain ⟨d, hd, -, hb, -, -⟩ := timeline_intake_resolution sampleProfile "p1" none sampleCatalog 0
    { id := "p1"
      degree_level := DegreeLevel.bachelor
      intakes := ["September", "February"]
      requirements := getRequirements sampleCatalog "p1"
      documents := getDocuments sampleCatalog "p1" }
    (by decide)
  obtain ⟨h1, h2⟩ := hb "September" ["February"] (by decide) (by decide)
  rw [hd]
  simp [timelineTargetIntake, timelineAssumptions, h1, h2]
/-- C5: for every successful buildTimeline call whose resolved checklist has
at least one required document, the critical-path list is non-empty, contains
the key of a document of maximal total duration, and its members are exactly
the keys of tasks whose total duration is at least 70% of the longest total
duration. -/
theorem timeline_critical_path (profile : Profile) (programId : String)
    (intakeTarget : Option String) (cat : Catalog) (today : Int) (detail : ProgramDetail)
    (h : getProgramDetail cat programId = some detail)
    (hreq : ∃ item ∈ checklistItems profile detail, item.priority = "required") :
    ∃ d, buildTimeline profile programId intakeTarget cat today = ToolResponse.ok d ∧
      d.critical_path_items ≠ [] ∧
      (∃ t ∈ timelineTasks (checklistItems profile detail),
        t.estimated_days =
          maxDuration (sortByCmp taskCmp (timelineTasks (checklistItems profile detail))) ∧
        (∀ u ∈ timelineTasks (checklistItems profile detail),
          u.estimated_days ≤ t.estimated_days) ∧
        t.doc_key ∈ d.critical_path_items) ∧
      (∀ k, k ∈ d.critical_path_items ↔
        ∃ t ∈ timelineTasks (checklistItems profile detail), t.doc_key = k ∧
          (maxDuration (sortByCmp taskCmp (timelineTasks (checklistItems profile detail))) : ℚ)
              * (7 / 10) ≤ (t.estimated_days : ℚ)) := by
  unfold buildTimeline buildDocumentChecklist
  rw [h]
  obtain ⟨item, hitem, hprio⟩ := hreq
  have htaskT : ∀ u ∈ timelineTasks (checklistItems profile detail),
      u ∈ sortByCmp taskCmp (timelineTasks (checklistItems profile detail)) :=
    fun u hu => (mem_sortByCmp _ _ u).mpr hu
  have hne : sortByCmp taskCmp (timelineTasks (checklistItems profile detail)) ≠ [] := by
    apply List.ne_nil_of_mem
    apply htaskT
    exact List.mem_map.mpr ⟨item, hitem, rfl⟩
  obtain ⟨t0, S2, hS⟩ := List.exists_cons_of_ne_nil hne
  · have hM : maxDuration (sortByCmp taskCmp (timelineTasks (checklistItems profile detail)))
        = t0.estimated_days := by rw [hS]; rfl
    have hcast : ∀ n : Nat, ((n : ℚ) * (7 / 10) ≤ (n : ℚ)) := by
      intro n
      have hnn : (0 : ℚ) ≤ (n : ℚ) := Nat.cast_nonneg n
      linarith
    have hpred0 : decide
        ((maxDuration (sortByCmp taskCmp (timelineTasks (checklistItems profile detail))) : ℚ)
          * (7 / 10) ≤ (t0.estimated_days : ℚ)) = true := by
      rw [hM]
      exact decide_eq_true (hcast t0.estimated_days)
    have ht0S : t0 ∈ sortByCmp taskCmp (timelineTasks (checklistItems profile detail)) := by
      rw [hS]; exact List.mem_cons_self _ _
    have ht0cpi : t0.doc_key ∈
        criticalPathOf (sortByCmp taskCmp (timelineTasks (checklistItems profile detail))) := by
      unfold criticalPathOf
      exact List.mem_map.mpr ⟨t0, List.mem_filter.mpr ⟨ht0S, hpred0⟩, rfl⟩
    refine ⟨_, rfl, ?_, ?_, ?_⟩
    · exact List.ne_nil_of_mem ht0cpi
    · refine ⟨t0, (mem_sortByCmp _ _ t0).mp ht0S, hM.symm, ?_, ht0cpi⟩
      intro u hu
      rw [← hM]
      exact sortByCmp_headDom _ u (htaskT u hu)
    · intro k
      constructor
      · intro hk
        unfold criticalPathOf at hk
        rw [List.mem_map] at hk
        obtain ⟨t, htf, rfl⟩ := hk
        rw [List.mem_filter] at htf
        obtain ⟨htS, hp⟩ := htf
        exact ⟨t, (mem_sortByCmp _ _ t).mp htS, rfl, of_decide_eq_true hp⟩
      · rintro ⟨t, htT, rfl, hge⟩
        unfold criticalPathOf
        exact List.mem_map.mpr ⟨t,
          List.mem_filter.mpr ⟨htaskT t htT, decide_eq_true hge⟩, rfl⟩
/-- Witness for C5 at a concrete input: sampleCatalog resolves a required
high-school diploma document, so the critical path of the generated timeline
is non-empty. -/
theorem timeline_critical_path_witness :
    timelineCriticalPath (buildTimeline sampleProfile "p1" none sampleCatalog 0) ≠ some [] := by
  obtain ⟨d, hd, hne2, -, -⟩ := timeline_critical_path sampleProfile "p1" none sampleCatalog 0
    { id := "p1"
      degree_level := DegreeLevel.bachelor
      intakes := ["September", "February"]
      requirements := getRequirements sampleCatalog "p1"
      documents := getDocuments sampleCatalog "p1" }
    (by decide)
    ⟨{ doc_key := "high_school_diploma"
       label_ar := "شهادة الثانوية"
       label_en := "High School Diploma"
       required := true
       translation_required := true
       notarization_required := true
       priority := "required"
       estimated_days := some 7 }, by decide, rfl⟩
  rw [hd]
  simp only [timelineCriticalPath, ne_eq, Option.some.injEq]
  exact hne2
theorem jsToLowerChar_of_not (c : Char) (h : ¬(65 ≤ c.toNat ∧ c.toNat ≤ 90)) :
    jsToLowerChar c = c := by
  unfold jsToLowerChar
  rw [if_neg h]

theorem jsToLowerChar_toNat (c : Char) (h : 65 ≤ c.toNat ∧ c.toNat ≤ 90) :
    (jsToLowerChar c).toNat = c.toNat + 32 := by
  unfold jsToLowerChar
  rw [if_pos h]
  have hv : Nat.isValidChar (c.toNat + 32) := Or.inl (by omega)
  unfold Char.ofNat
  rw [dif_pos hv]
  rfl

theorem jsToLowerChar_idem (c : Char) :
    jsToLowerChar (jsToLowerChar c) = jsToLowerChar c := by
  by_cases h : 65 ≤ c.toNat ∧ c.toNat ≤ 90
  · apply jsToLowerChar_of_not
    rw [jsToLowerChar_toNat c h]
    omega
  · rw [jsToLowerChar_of_not c h]
    exact jsToLowerChar_of_not c h

theorem dropWhile_dropWhile {α : Type} (p : α → Bool) (l : List α) :
    List.dropWhile p (List.dropWhile p l) = List.dropWhile p l := by
  induction l with
  | nil => rfl
  | cons a l ih =>
    rw [List.dropWhile_cons]
    by_cases hp : p a = true
    · rw [if_pos hp]; exact ih
    · rw [if_neg hp, List.dropWhile_cons, if_neg hp]

theorem head_dropWhile_false {α : Type} (p : α → Bool) (l : List α) (c : α)
    (h : (List.dropWhile p l).head? = some c) : p c = false := by
  have hh := List.head?_dropWhile_not p l
  rw [h] at hh
  exact hh

theorem exists_append_dropWhile {α : Type} (p : α → Bool) (l : List α) :
    ∃ t, l = t ++ List.dropWhile p l := by
  induction l with
  | nil => exact ⟨[], rfl⟩
  | cons a l ih =>
    rw [List.dropWhile_cons]
    by_cases hp : p a = true
    · rw [if_pos hp]
      obtain ⟨t, ht⟩ := ih
      exact ⟨a :: t, by rw [List.cons_append, ← ht]⟩
    · rw [if_neg hp]
      exact ⟨[], rfl⟩

theorem trimChars_trim (l : List Char) : trimChars (trimChars l) = trimChars l := by
  unfold trimChars
  set A := l.dropWhile Char.isWhitespace with hA
  set C := A.reverse.dropWhile Char.isWhitespace with hC
  have hstep1 : C.reverse.dropWhile Char.isWhitespace = C.reverse := by
    obtain ⟨t, ht⟩ := exists_append_dropWhile Char.isWhitespace A.reverse
    cases hrev : C.reverse with
    | nil => rfl
    | cons c y2 =>
      rw [← hC] at ht
      have h2 := congrArg List.reverse ht
      rw [List.reverse_reverse, List.reverse_append] at h2
      have hAeq : A = c :: (y2 ++ t.reverse) := by
        rw [h2, hrev, List.cons_append]
      have hc : Char.isWhitespace c = false := by
        apply head_dropWhile_false Char.isWhitespace l
        rw [← hA, hAeq]
        rfl
      rw [List.dropWhile_cons, if_neg (by rw [hc]; exact Bool.false_ne_true)]
  rw [hstep1, List.reverse_reverse, dropWhile_dropWhile]

theorem map_id_of_mem {α : Type} (l : List α) (f : α → α) (h : ∀ a ∈ l, f a = a) :
    l.map f = l := by
  induction l with
  | nil => rfl
  | cons a l ih =>
    rw [List.map_cons, h a (List.mem_cons_self _ _),
      ih (fun b hb => h b (List.mem_cons_of_mem _ hb))]

theorem mem_trimChars (l : List Char) (c : Char) (h : c ∈ trimChars l) : c ∈ l := by
  unfold trimChars at h
  rw [List.mem_reverse] at h
  have h2 := List.Sublist.mem h (List.dropWhile_sublist _)
  rw [List.mem_reverse] at h2
  exact List.Sublist.mem h2 (List.dropWhile_sublist _)

theorem normalizeKeyword_idem (s : String) :
    normalizeKeyword (normalizeKeyword s) = normalizeKeyword s := by
  unfold normalizeKeyword
  congr 1
  have hmap : (trimChars ((s.data.map jsToLowerChar).filter keepChar)).map jsToLowerChar =
      trimChars ((s.data.map jsToLowerChar).filter keepChar) := by
    apply map_id_of_mem
    intro a ha
    have ha2 := mem_trimChars _ a ha
    rw [List.mem_filter] at ha2
    obtain ⟨ha3, -⟩ := ha2
    rw [List.mem_map] at ha3
    obtain ⟨b, -, rfl⟩ := ha3
    exact jsToLowerChar_idem b
  have hfil : (trimChars ((s.data.map jsToLowerChar).filter keepChar)).filter keepChar =
      trimChars ((s.data.map jsToLowerChar).filter keepChar) := by
    apply List.filter_eq_self.mpr
    intro a ha
    have ha2 := mem_trimChars _ a ha
    rw [List.mem_filter] at ha2
    exact ha2.2
  rw [hmap, hfil]
  exact trimChars_trim _
theorem mem_addToSet (s : List String) (x y : String) :
    y ∈ addToSet s x ↔ y ∈ s ∨ y = x := by
  unfold addToSet
  by_cases hc : s.contains x
  · rw [if_pos hc]
    constructor
    · exact Or.inl
    · rintro (hy | rfl)
      · exact hy
      · exact List.mem_of_elem_eq_true hc
  · rw [if_neg hc]
    rw [List.mem_append, List.mem_singleton]
theorem mem_foldl_addToSet (xs : List String) (init : List String) (w : String) :
    w ∈ xs.foldl addToSet init ↔ w ∈ init ∨ w ∈ xs := by
  induction xs generalizing init with
  | nil => simp
  | cons x xs ih =>
    rw [List.foldl_cons, ih, mem_addToSet, List.mem_cons]
    tauto
theorem mem_foldl_entries (entries : List (String × List String)) (init : List String)
    (normalized : String) (w : String) :
    w ∈ entries.foldl
        (fun e entry =>
          if entry.2.any (fun s => normalizeKeyword s == normalized) then
            (entry.2.map normalizeKeyword).foldl addToSet (addToSet e (normalizeKeyword entry.1))
          else e)
        init ↔
      w ∈ init ∨ ∃ entry ∈ entries,
        (entry.2.any (fun s => normalizeKeyword s == normalized)) = true ∧
        (w = normalizeKeyword entry.1 ∨ w ∈ entry.2.map normalizeKeyword) := by
  induction entries generalizing init with
  | nil => simp
  | cons ent ents ih =>
    rw [List.foldl_cons, ih]
    by_cases hc : (ent.2.any (fun s => normalizeKeyword s == normalized)) = true
    · rw [if_pos hc, mem_foldl_addToSet, mem_addToSet]
      constructor
      · rintro (((hin | rfl) | hmap) | hrest)
        · exact Or.inl hin
        · exact Or.inr ⟨ent, List.mem_cons_self _ _, hc, Or.inl rfl⟩
        · exact Or.inr ⟨ent, List.mem_cons_self _ _, hc, Or.inr hmap⟩
        · obtain ⟨e2, he2, hany, hw⟩ := hrest
          exact Or.inr ⟨e2, List.mem_cons_of_mem _ he2, hany, hw⟩
      · rintro (hin | ⟨e2, he2, hany, hw⟩)
        · exact Or.inl (Or.inl (Or.inl hin))
        · rcases List.mem_cons.mp he2 with rfl | htail
          · rcases hw with rfl | hmap
            · exact Or.inl (Or.inl (Or.inr rfl))
            · exact Or.inl (Or.inr hmap)
          · exact Or.inr ⟨e2, htail, hany, hw⟩
    · rw [if_neg hc]
      constructor
      · rintro (hin | ⟨e2, he2, hany, hw⟩)
        · exact Or.inl hin
        · exact Or.inr ⟨e2, List.mem_cons_of_mem _ he2, hany, hw⟩
      · rintro (hin | ⟨e2, he2, hany, hw⟩)
        · exact Or.inl hin
        · rcases List.mem_cons.mp he2 with rfl | htail
          · exact absurd hany hc
          · exact Or.inr ⟨e2, htail, hany, hw⟩

theorem KEYWORD_SYNONYMS_keys_normalized :
    ∀ entry ∈ KEYWORD_SYNONYMS, normalizeKeyword entry.1 = entry.1 := by
  decide
theorem norm_fix_of_eq_norm (w s : String) (h : w = normalizeKeyword s) :
    normalizeKeyword w = w := by
  rw [h]
  exact normalizeKeyword_idem s

theorem expandStep_spec (acc : List String × List String) (keyword w : String)
    (h : w ∈ (expandStep acc keyword).1) :
    w ∈ acc.1 ∨
      ((w = normalizeKeyword keyword ∨ synStep (normalizeKeyword keyword) w) ∧
        normalizeKeyword w = w) := by
  unfold expandStep at h
  dsimp only at h
  rw [mem_foldl_entries] at h
  rcases h with hleft | ⟨entry, hent, hany, hw⟩
  · cases hsy : synonymsOf (normalizeKeyword keyword) with
    | none =>
      rw [hsy] at hleft
      dsimp only at hleft
      rw [mem_addToSet] at hleft
      rcases hleft with hin | rfl
      · exact Or.inl hin
      · exact Or.inr ⟨Or.inl rfl, norm_fix_of_eq_norm _ _ rfl⟩
    | some syns =>
      rw [hsy] at hleft
      dsimp only at hleft
      rw [mem_foldl_addToSet, mem_addToSet] at hleft
      rcases hleft with (hin | rfl) | hmap
      · exact Or.inl hin
      · exact Or.inr ⟨Or.inl rfl, norm_fix_of_eq_norm _ _ rfl⟩
      · rw [List.mem_map] at hmap
        obtain ⟨s, hs, heq⟩ := hmap
        unfold synonymsOf at hsy
        rw [Option.map_eq_some'] at hsy
        obtain ⟨entry, hfind, hsnd⟩ := hsy
        have hmem := List.mem_of_find?_eq_some hfind
        have hkey : entry.1 = normalizeKeyword keyword := by
          have := List.find?_some hfind
          exact eq_of_beq this
        refine Or.inr ⟨Or.inr ⟨entry, hmem, Or.inl ?_, Or.inr ⟨s, ?_, heq.symm⟩⟩,
          norm_fix_of_eq_norm _ _ heq.symm⟩
        · rw [hkey.symm]
          exact (KEYWORD_SYNONYMS_keys_normalized entry hmem).symm
        · rw [hsnd]
          exact hs
  · rw [List.any_eq_true] at hany
    obtain ⟨s, hs, hbeq⟩ := hany
    have hnorm : normalizeKeyword s = normalizeKeyword keyword := eq_of_beq hbeq
    have hstep : synStep (normalizeKeyword keyword) w := by
      refine ⟨entry, hent, Or.inr ⟨s, hs, hnorm.symm⟩, ?_⟩
      rcases hw with rfl | hmap
      · exact Or.inl rfl
      · rw [List.mem_map] at hmap
        obtain ⟨s2, hs2, heq2⟩ := hmap
        exact Or.inr ⟨s2, hs2, heq2.symm⟩
    have hfix : normalizeKeyword w = w := by
      rcases hw with rfl | hmap
      · exact norm_fix_of_eq_norm _ _ rfl
      · rw [List.mem_map] at hmap
        obtain ⟨s2, hs2, heq2⟩ := hmap
        exact norm_fix_of_eq_norm _ _ heq2.symm
    exact Or.inr ⟨Or.inr hstep, hfix⟩
theorem expandKeywords_mem_spec (keywords : List String) (w : String)
    (h : w ∈ (expandKeywords keywords).1) :
    (∃ k ∈ keywords, w = normalizeKeyword k ∨ synStep (normalizeKeyword k) w) ∧
    normalizeKeyword w = w := by
  suffices H : ∀ (ks : List String) (acc : List String × List String) (w : String),
      w ∈ (ks.foldl expandStep acc).1 → w ∈ acc.1 ∨
        ((∃ k ∈ ks, w = normalizeKeyword k ∨ synStep (normalizeKeyword k) w) ∧
          normalizeKeyword w = w) by
    rcases H keywords ([], []) w h with hin | hok
    · exact absurd hin (List.not_mem_nil w)
    · exact hok
  intro ks
  induction ks with
  | nil => intro acc w h; exact Or.inl h
  | cons k ks ih =>
    intro acc w h
    rw [List.foldl_cons] at h
    rcases ih (expandStep acc k) w h with hin | ⟨⟨k2, hk2, hs2⟩, hfix⟩
    · rcases expandStep_spec acc k w hin with hin2 | ⟨hs, hfix⟩
      · exact Or.inl hin2
      · exact Or.inr ⟨⟨k, List.mem_cons_self _ _, hs⟩, hfix⟩
    · exact Or.inr ⟨⟨k2, List.mem_cons_of_mem _ hk2, hs2⟩, hfix⟩

/-- C8: keyword expansion is idempotent up to the transitive closure of the
synonym groups — every member of the expansion of an already-expanded keyword
list is reachable from a normalised original keyword by finitely many
same-synonym-group steps — and expanding the list containing cs produces a
set including computer science. -/
theorem keyword_expansion_closure :
    (∀ (keywords : List String) (w : String),
      w ∈ (expandKeywords (expandKeywords keywords).1).1 →
      ∃ k ∈ keywords, Relation.ReflTransGen synStep (normalizeKeyword k) w) ∧
    "computer science" ∈ (expandKeywords ["cs"]).1 := by
  constructor
  · intro keywords w h
    obtain ⟨⟨w1, hw1, hstep1⟩, -⟩ := expandKeywords_mem_spec _ w h
    obtain ⟨⟨k, hk, hstep0⟩, hfix1⟩ := expandKeywords_mem_spec keywords w1 hw1
    refine ⟨k, hk, ?_⟩
    have hbase : Relation.ReflTransGen synStep (normalizeKeyword k) w1 := by
      rcases hstep0 with rfl | hs
      · exact Relation.ReflTransGen.refl
      · exact Relation.ReflTransGen.single hs
    rw [hfix1] at hstep1
    rcases hstep1 with rfl | hs
    · exact hbase
    · exact Relation.ReflTransGen.tail hbase hs
  · decide

set_option maxRecDepth 8000 in
/-- Witness for C8 at a concrete input: computer science survives double
expansion of the list containing cs and is reachable from the normalised
keyword cs under the synonym-group closure. -/
theorem keyword_expansion_closure_witness :
    ("computer science" ∈ (expandKeywords (expandKeywords ["cs"]).1).1) ∧
    Relation.ReflTransGen synStep (normalizeKeyword "cs") "computer science" := by
  have hmem : "computer science" ∈ (expandKeywords (expandKeywords ["cs"]).1).1 := by decide
  obtain ⟨k, hk, hr⟩ := keyword_expansion_closure.1 ["cs"] "computer science" hmem
  have hkcs : k = "cs" := by simpa using hk
  subst hkcs
  exact ⟨hmem, hr⟩
